import Mathlib

/-!
Verification development for the rolling-straddle trading system.

The definitions below are a shallow embedding of the repository's Python
sources:
  * `src/orchestrator/execution_adapter.py` (Order Gateway),
  * `src/strategies/rolling_straddle.py`   (Strategy Engine),
  * `src/orchestrator/master.py`           (Control Loop schedule handling).

Numbers that are Python floats/ints are modelled as `ℚ`/`ℤ`/`ℕ`; wall-clock
times are seconds as `ℚ`; randomness (uuid draws) and the network
(`requests.post` outcomes) are passed in as explicit oracle functions, so
every definition is executable.  Python code that raises is modelled with
`Except Unit`, returning the partially mutated state together with the
error, because Python object mutations performed before a `raise` persist.
-/

set_option allowUnsafeReducibility true

/- Core marks rational arithmetic irreducible, which blocks `decide`-style
evaluation of the executable model; restore the default reducibility. -/
attribute [semireducible] Rat.add Rat.sub Rat.mul Rat.div Rat.neg Rat.inv Rat.blt

set_option maxRecDepth 10000

deriving instance DecidableEq for Except

/-! ### Python-semantics helpers -/

/-- Python `abs` on a rational. -/
def pyAbs (q : ℚ) : ℚ := if q < 0 then -q else q

/-- Python `max(a, b)` (returns the first argument on ties). -/
def pyMax (a b : ℚ) : ℚ := if a < b then b else a

/-- Python `int(x)`: truncation toward zero. -/
def pyInt (q : ℚ) : ℤ := if 0 ≤ q then q.floor else q.ceil

/-- Python `round(x)` with no digits: round-half-to-even. -/
def pyRound (q : ℚ) : ℤ :=
  let f := q.floor
  let r := q - (f : ℚ)
  if r < 1/2 then f
  else if 1/2 < r then f + 1
  else if f % 2 = 0 then f else f + 1

/-- Python truthiness of an optional float used with `or`:
`x or d` yields `d` when `x` is `None` or `0.0`. -/
def pyOr (o : Option ℚ) (d : ℚ) : ℚ :=
  match o with
  | none => d
  | some x => if x = 0 then d else x

/-- The character for a single decimal digit. -/
def digitChr (d : Nat) : Char := Char.ofNat (48 + d)

/-- Fuel-driven decimal rendering of a positive natural (most significant
digit first), mirroring Python `str(n)`. -/
def decReprAux : Nat → Nat → List Char
  | 0, _ => []
  | _ + 1, 0 => []
  | fuel + 1, n + 1 => decReprAux fuel ((n + 1) / 10) ++ [digitChr ((n + 1) % 10)]

/-- Decimal rendering of a natural number, as Python `str(n)`. -/
def decRepr (n : Nat) : List Char := if n = 0 then ['0'] else decReprAux n n

/-- Decimal rendering of an integer, as Python `str(z)`. -/
def intRepr (z : ℤ) : List Char :=
  if z < 0 then '-' :: decRepr z.natAbs else decRepr z.natAbs

/-- Parse a digit string back to a number (left fold, base 10). -/
def decVal (l : List Char) : Nat :=
  l.foldl (fun a c => a * 10 + (c.toNat - 48)) 0

/-- Python `enumerate` over a list. -/
def pyEnum {α : Type} (l : List α) : List (Nat × α) := (List.range l.length).zip l

/-! ### Order Gateway (`src/orchestrator/execution_adapter.py`) -/

/-- Circuit-breaker state (`self.circuit_state`). -/
inductive CircuitState
  | CLOSED
  | OPEN
  | HALF_OPEN
deriving DecidableEq, Repr

/-- The slice of the adapter's configuration that `send_orders` and the
circuit-breaker helpers read. -/
structure ExecConfig where
  webhook_url : String
  max_retries : Nat
  simulation_mode : Bool
  circuit_breaker_threshold : Nat
  circuit_breaker_timeout : ℚ
deriving DecidableEq, Repr

/-- An order dict as produced by the strategy and consumed by
`send_orders` (`instrument`, `action`, `lots`). -/
structure Order where
  instrument : String
  action : String
  lots : ℚ
deriving DecidableEq, Repr

/-- A pending-order record (`self.pending_orders[key]`). -/
structure PendingRec where
  order : Order
  order_id : Option String
  timestamp : String
  status : String
deriving DecidableEq, Repr

/-- Mutable adapter state touched by `send_orders`.  Persistence files and
the filled-orders ledger are not needed by any claim and are omitted. -/
structure AdapterState where
  consecutive_failures : Nat
  circuit_open_time : Option ℚ
  circuit_state : CircuitState
  pending_orders : List (String × PendingRec)
deriving DecidableEq, Repr

/-- A JSON-ish value stored in a response record. -/
inductive RVal
  | s : String → RVal
  | n : Nat → RVal
  | b : Bool → RVal
  | nil : RVal
  | ord : Order → RVal
deriving DecidableEq, Repr

/-- A response record: an association list mirroring the Python dict
literal, in insertion order. -/
abbrev Response := List (String × RVal)

/-- Models `str | None` as a response value. -/
def optVal (o : Option String) : RVal :=
  match o with
  | none => RVal.nil
  | some s => RVal.s s

/-- The simulated response dict built in the simulation branch of
`send_orders`. -/
def simRecord (o : Order) (suffix : String) : Response :=
  [("order", RVal.ord o), ("status", RVal.n 200), ("simulated", RVal.b true),
   ("success", RVal.b true), ("order_id", RVal.s ("SIM-" ++ suffix)),
   ("response", RVal.s "Simulated order")]

/-- The response dict built for a successful live delivery. -/
def liveSuccessRecord (o : Order) (status : Nat) (oid : Option String)
    (key body : String) : Response :=
  [("order", RVal.ord o), ("status", RVal.n status), ("success", RVal.b true),
   ("order_id", optVal oid), ("idempotency_key", RVal.s key),
   ("response", RVal.s body), ("simulated", RVal.b false)]

/-- The response dict built when an order exhausts its retries. -/
def failureRecord (o : Order) (err : Option String) (attempts : Nat) : Response :=
  [("order", RVal.ord o), ("status", RVal.s "failed"), ("success", RVal.b false),
   ("error", optVal err), ("attempts", RVal.n attempts),
   ("simulated", RVal.b false)]

/-- Models `_check_circuit_breaker`: may mutate the state (OPEN → HALF_OPEN) and
returns whether the call may proceed. -/
def check_circuit_breaker (cfg : ExecConfig) (st : AdapterState) (now : ℚ) :
    AdapterState × Bool :=
  match st.circuit_state with
  | CircuitState.OPEN =>
    if cfg.circuit_breaker_timeout < now - (st.circuit_open_time.getD 0) then
      ({st with circuit_state := CircuitState.HALF_OPEN}, true)
    else (st, false)
  | _ => (st, true)

/-- Models `_record_success`. -/
def record_success (st : AdapterState) : AdapterState :=
  {st with consecutive_failures := 0,
           circuit_state := if st.circuit_state = CircuitState.HALF_OPEN
                            then CircuitState.CLOSED else st.circuit_state}

/-- Models `_record_failure` (`now` models the `time.time()` call). -/
def record_failure (cfg : ExecConfig) (st : AdapterState) (now : ℚ) : AdapterState :=
  let f := st.consecutive_failures + 1
  if cfg.circuit_breaker_threshold ≤ f then
    {st with consecutive_failures := f, circuit_state := CircuitState.OPEN,
             circuit_open_time := some now}
  else {st with consecutive_failures := f}

/-- Is a character a hexadecimal digit? (for `[0-9a-fA-F]`). -/
def isHexChar (c : Char) : Bool :=
  (48 ≤ c.toNat && c.toNat ≤ 57) || (97 ≤ c.toNat && c.toNat ≤ 102) ||
  (65 ≤ c.toNat && c.toNat ≤ 70)

/-- Models `re.fullmatch(r'[0-9a-fA-F]{24}', tag)`. -/
def isHex24 (s : String) : Bool :=
  s.data.length == 24 && s.data.all isHexChar

/-- The request tag computed at the top of the live branch of
`send_orders`: the caller's tag if it is 24-hex, else a fresh random one
(`_ensure_24hex_tag`; `fresh` models the `uuid4().hex[:24]` draw). -/
def request_tag (tag fresh : String) : String :=
  if isHex24 tag then tag else fresh

/-- The per-order idempotency key
`f"{request_tag}-{i}-{uuid.uuid4().hex[:8]}"` (`suffix` models the random
draw). -/
def mkKey (tag : String) (i : Nat) (suffix : String) : String :=
  tag ++ "-" ++ String.mk (decRepr i) ++ "-" ++ suffix

/-- One `requests.post` outcome: an HTTP response, a timeout, or another
transport exception. -/
inductive AttemptResult
  | resp : Nat → String → AttemptResult
  | timeout : String → AttemptResult
  | exc : String → AttemptResult
deriving DecidableEq, Repr

/-- The `last_error` string recorded for a failed attempt. -/
def fmtError : AttemptResult → String
  | AttemptResult.resp s body => "HTTP " ++ String.mk (decRepr s) ++ ": " ++ body
  | AttemptResult.timeout m => "Timeout: " ++ m
  | AttemptResult.exc m => "Exception: " ++ m

/-- The retry loop for one order: attempts `1..max_retries` against the
network oracle, stopping at the first HTTP 200.  Returns the successful
attempt number and body, if any. -/
def tryAttempts (net : Nat → AttemptResult) (maxR : Nat) : Option (Nat × String) :=
  (List.range maxR).findSome? (fun t =>
    match net (t + 1) with
    | AttemptResult.resp 200 body => some (t + 1, body)
    | _ => none)

/-- Models `last_error` after the retry loop exhausts: the error of the final
attempt (absent when `max_retries = 0`, since the loop body never runs). -/
def lastError (net : Nat → AttemptResult) (maxR : Nat) : Option String :=
  if maxR = 0 then none else some (fmtError (net maxR))

/-- Association-list update used for `self.pending_orders[key] = rec`. -/
def alSetPending (l : List (String × PendingRec)) (k : String) (v : PendingRec) :
    List (String × PendingRec) :=
  if l.any (fun p => p.1 == k) then
    l.map (fun p => if p.1 == k then (k, v) else p)
  else l ++ [(k, v)]

/-- Accumulator of the per-order loop inside `send_orders`. -/
structure BatchOut where
  responses : List Response
  pending : List (String × PendingRec)
  anySuccess : Bool
  calls : Nat
deriving Repr

/-- The per-order loop of the live branch of `send_orders`: for each
order, generate the idempotency key, run the retry loop, and record either
a success response plus a pending-order registration or a failure
response.  `calls` counts network requests actually made. -/
def batchStep (cfg : ExecConfig) (rand : Nat → String)
    (net : Nat → Nat → AttemptResult) (parseId : String → Option String)
    (tagR nowIso : String) (orders : List Order)
    (pending0 : List (String × PendingRec)) : BatchOut :=
  (pyEnum orders).foldl (fun acc io =>
    let i := io.1
    let o := io.2
    let key := mkKey tagR i (rand i)
    match tryAttempts (net i) cfg.max_retries with
    | some tb =>
      { responses := acc.responses ++ [liveSuccessRecord o 200 (parseId tb.2) key tb.2],
        pending := alSetPending acc.pending key
          ⟨o, parseId tb.2, nowIso, "pending"⟩,
        anySuccess := true,
        calls := acc.calls + tb.1 }
    | none =>
      { responses := acc.responses ++ [failureRecord o (lastError (net i) cfg.max_retries) cfg.max_retries],
        pending := acc.pending,
        anySuccess := acc.anySuccess,
        calls := acc.calls + cfg.max_retries })
    ⟨[], pending0, false, 0⟩

/-- The result of `send_orders`: final adapter state, the returned pair
`(any_success, responses)`, and the number of network requests made. -/
structure SendResult where
  state : AdapterState
  anySucceeded : Bool
  responses : List Response
  netCalls : Nat
deriving Repr

/-- Models `send_orders(orders, tag)`.  Oracles: `fresh` is the uuid draw of
`_ensure_24hex_tag`; `rand i` the uuid suffix for order `i` (idempotency
key in live mode, `SIM-` id in simulation mode); `net i t` the outcome of
attempt `t` for order `i`; `parseId` abstracts `_parse_order_id` (no claim
depends on its value); `now` is `time.time()` and `nowIso` the ISO
timestamp.  Alerting and the optional immediate poll are disabled-by-config
side channels and are not modelled. -/
def send_orders (cfg : ExecConfig) (st : AdapterState) (orders : List Order)
    (tag fresh : String) (rand : Nat → String) (net : Nat → Nat → AttemptResult)
    (parseId : String → Option String) (now : ℚ) (nowIso : String) : SendResult :=
  if cfg.webhook_url = "" then ⟨st, false, [], 0⟩
  else
    let c := check_circuit_breaker cfg st now
    if c.2 = false then ⟨c.1, false, [], 0⟩
    else if cfg.simulation_mode then
      ⟨c.1, true, (pyEnum orders).map (fun p => simRecord p.2 (rand p.1)), 0⟩
    else
      let tagR := request_tag tag fresh
      let b := batchStep cfg rand net parseId tagR nowIso orders c.1.pending_orders
      let st2 : AdapterState := {c.1 with pending_orders := b.pending}
      let st3 := if b.anySuccess then record_success st2 else record_failure cfg st2 now
      ⟨st3, b.anySuccess, b.responses, b.calls⟩

/-! ### Strategy Engine (`src/strategies/rolling_straddle.py`) -/

/-- Call or put. -/
inductive OptType
  | C
  | P
deriving DecidableEq, Repr

/-- An option symbol as built by `_build_option_symbol`:
`f"{SYMBOL}{yymmdd}{opt_type}{int(strike)}"`.  The components are kept
structured; `renderInstr` recovers the concrete string. -/
structure Instr where
  sym : List Char
  yymmdd : List Char
  ty : OptType
  strike : ℤ
deriving DecidableEq, Repr

/-- The `C`/`P` character of an option type. -/
def tyChar : OptType → Char
  | OptType.C => 'C'
  | OptType.P => 'P'

/-- The concrete symbol string (as a character list). -/
def renderInstr (i : Instr) : List Char :=
  i.sym ++ i.yymmdd ++ [tyChar i.ty] ++ intRepr i.strike

/-- Python `instr.endswith(c)` on the rendered symbol. -/
def endsWithChar (i : Instr) (c : Char) : Bool :=
  (renderInstr i).getLast? == some c

/-- One row of the option chain: strike plus call/put last-traded prices
(which may be absent). -/
structure ChainRow where
  strike : ℚ
  ce_ltp : Option ℚ
  pe_ltp : Option ℚ
deriving DecidableEq, Repr

/-- A per-tick market snapshot (the keys `rolling_straddle.py` reads). -/
structure Snapshot where
  spot : ℚ
  atm_strike : ℤ
  ce_ltp : ℚ
  pe_ltp : ℚ
  iv_estimates : ℚ
  iv_rank : ℚ
  regime : String
  option_chain : List ChainRow
deriving DecidableEq, Repr

/-- Does the symbol match the regex
`([A-Z]+)(\d{6})([CP])(\d+)` of `_get_ltp_for_instrument`?  For the
structured symbols this holds iff the sym part is nonempty uppercase, the
date part is six digits, and the strike is nonnegative. -/
def regexOk (i : Instr) : Bool :=
  (!i.sym.isEmpty) && i.sym.all (fun c => 65 ≤ c.toNat && c.toNat ≤ 90) &&
  i.yymmdd.length == 6 && i.yymmdd.all (fun c => 48 ≤ c.toNat && c.toNat ≤ 57) &&
  (0 ≤ i.strike)

/-- Models `_get_ltp_for_instrument`: find the first chain row whose (truncated)
strike equals the symbol's strike and read the matching side's `ltp`,
defaulting to `0.0` on any miss. -/
def getLtp (chain : List ChainRow) (i : Instr) : ℚ :=
  if regexOk i then
    match chain.find? (fun r => pyInt r.strike == i.strike) with
    | some r =>
      match i.ty with
      | OptType.C => r.ce_ltp.getD 0
      | OptType.P => r.pe_ltp.getD 0
    | none => 0
  else 0

/-- One straddle leg (an entry of `self.open_positions`). -/
structure Leg where
  instrument : Instr
  side : String
  entry_price : Option ℚ
  requested_price : ℚ
  quantity : ℚ
  mtm : ℚ
  state : String
deriving DecidableEq, Repr

/-- Wing bookkeeping (a value of `self.otm_legs`). -/
structure WingMeta where
  state : String
  requested_price : Option ℚ
  entry_price : Option ℚ
deriving DecidableEq, Repr

/-- The strategy's mutable state. -/
structure StratState where
  open_positions : List Leg
  otm_legs : List (Instr × WingMeta)
  last_atm : Option ℤ
  last_roll_time : Option ℚ
  in_position : Bool
  has_otm_wings : Bool
  baseline_ce_ltp : Option ℚ
  baseline_pe_ltp : Option ℚ
  last_ce_action : Option String
  last_pe_action : Option String
  realized_ce_mtm : ℚ
  realized_pe_mtm : ℚ
deriving DecidableEq, Repr

/-- The state after `__init__`. -/
def initStratState : StratState :=
  ⟨[], [], none, none, false, false, none, none, none, none, 0, 0⟩

/-- Strategy configuration (the config values read in `__init__`). -/
structure StratConfig where
  STRIKE_STEP : ℚ
  LOT_SIZE : ℚ
  MESSAGE_LOTS : ℚ
  STOPLOSS_PER_LOT : ℚ
  TARGET_PER_LOT : ℚ
  ROLL_PCT : ℚ
  BUFFER : ℚ
  SYMBOL : String
  EXPIRY_DATE : String
  OTM_EXIT_PCT : ℚ
deriving DecidableEq, Repr

/-- Models `self.HOLD_TIME = datetime.timedelta(minutes=1)`, in seconds. -/
def hold_time : ℚ := 60

/-- An order request dict returned by the strategy
(`action`, `instrument`, `lots`). -/
structure OrderReq where
  action : String
  instrument : Instr
  lots : ℚ
deriving DecidableEq, Repr

/-- The action dict returned by `on_tick` (`reason` plus either
`positions` or `orders`; the unused list is empty).  Named `TickAction`
because Mathlib already declares `Action`. -/
structure TickAction where
  reason : String
  positions : List Leg
  orders : List OrderReq
deriving DecidableEq, Repr

/-- Models `_build_option_symbol`: `SYMBOL + EXPIRY_DATE.replace("-","")[2:] +
opt_type + str(int(strike))`. -/
def build_option_symbol (cfg : StratConfig) (strike : ℚ) (ty : OptType) : Instr :=
  ⟨cfg.SYMBOL.data, (cfg.EXPIRY_DATE.data.filter (fun c => c != '-')).drop 2,
   ty, pyInt strike⟩

/-- The mark-to-market of one leg exactly as lines 101–104 of
`rolling_straddle.py` compute it (zero when the leg has no confirmed
entry price). -/
def legMtm (cfg : StratConfig) (chain : List ChainRow) (p : Leg) : ℚ :=
  match p.entry_price with
  | none => 0
  | some e =>
    if e = 0 then 0
    else
      let c := getLtp chain p.instrument
      if p.side = "S" then (e - c) * p.quantity * cfg.LOT_SIZE
      else (c - e) * p.quantity * cfg.LOT_SIZE

/-- Step 1 of `on_tick`: update each leg's `mtm` field and accumulate the
call-side/put-side sums.  The accumulation is guarded by
`instr.endswith("C")`/`endswith("P")` exactly as in the source (lines
106–109) — note the rendered symbols end with the strike digits. -/
def computeLegsStep (cfg : StratConfig) (chain : List ChainRow)
    (acc : List Leg × ℚ × ℚ) (pos : Leg) : List Leg × ℚ × ℚ :=
  match pos.entry_price with
  | none => (acc.1 ++ [{pos with mtm := 0}], acc.2.1, acc.2.2)
  | some e =>
    if e = 0 then (acc.1 ++ [{pos with mtm := 0}], acc.2.1, acc.2.2)
    else
      let m := legMtm cfg chain pos
      if endsWithChar pos.instrument 'C' then
        (acc.1 ++ [{pos with mtm := m}], acc.2.1 + m, acc.2.2)
      else if endsWithChar pos.instrument 'P' then
        (acc.1 ++ [{pos with mtm := m}], acc.2.1, acc.2.2 + m)
      else (acc.1 ++ [{pos with mtm := m}], acc.2.1, acc.2.2)

def computeLegs (cfg : StratConfig) (chain : List ChainRow) (legs : List Leg) :
    List Leg × ℚ × ℚ :=
  legs.foldl (computeLegsStep cfg chain) ([], 0, 0)

/-- The total MTM that `on_tick` actually compares against the stop and
target bounds (line 110). -/
def code_total_mtm (cfg : StratConfig) (st : StratState) (snap : Snapshot) : ℚ :=
  (computeLegs cfg snap.option_chain st.open_positions).2.1 +
  (computeLegs cfg snap.option_chain st.open_positions).2.2 +
  st.realized_ce_mtm + st.realized_pe_mtm

/-- The total MTM the specification describes: the per-leg MTM the code
itself computes into each `pos["mtm"]`, summed, plus the realized MTM. -/
def spec_total_mtm (cfg : StratConfig) (st : StratState) (snap : Snapshot) : ℚ :=
  (st.open_positions.map (legMtm cfg snap.option_chain)).sum +
  st.realized_ce_mtm + st.realized_pe_mtm

/-- Models `ce_change_pct` (line 124), with the Python `or` fallbacks. -/
def ce_change_pct (st : StratState) (snap : Snapshot) : ℚ :=
  ((snap.ce_ltp - pyOr st.baseline_ce_ltp snap.ce_ltp) /
    pyOr st.baseline_ce_ltp 1) * 100

/-- Models `pe_change_pct` (line 125). -/
def pe_change_pct (st : StratState) (snap : Snapshot) : ℚ :=
  ((snap.pe_ltp - pyOr st.baseline_pe_ltp snap.pe_ltp) /
    pyOr st.baseline_pe_ltp 1) * 100

/-- Models `buffer_ok` (line 126): vacuously true when `last_atm` is `None` or
`0` (falsy). -/
def buffer_ok (cfg : StratConfig) (st : StratState) (snap : Snapshot) : Bool :=
  match st.last_atm with
  | none => true
  | some a => if a = 0 then true else decide (cfg.BUFFER ≤ pyAbs (snap.spot - (a : ℚ)))

/-- Models `atm_changed` (line 128): `snapshot["atm_strike"] != self.last_atm`
(an `int` is never equal to `None`). -/
def atm_changed (st : StratState) (snap : Snapshot) : Bool :=
  decide (st.last_atm ≠ some snap.atm_strike)

/-- Models `ce_should_roll` (line 132).  `hold_ok` is inlined as `true` because
this expression is only ever evaluated when `last_roll_time` is `None`
(otherwise line 127 already raised, see `on_tick`). -/
def ce_should_roll (cfg : StratConfig) (st : StratState) (snap : Snapshot) : Bool :=
  decide (cfg.ROLL_PCT ≤ pyAbs (ce_change_pct st snap)) &&
  buffer_ok cfg st snap && atm_changed st snap

/-- Models `pe_should_roll` (line 133). -/
def pe_should_roll (cfg : StratConfig) (st : StratState) (snap : Snapshot) : Bool :=
  decide (cfg.ROLL_PCT ≤ pyAbs (pe_change_pct st snap)) &&
  buffer_ok cfg st snap && atm_changed st snap

/-- Models `_should_have_otm_wings`. -/
def should_have_otm_wings (snap : Snapshot) (regime : String) : Bool :=
  if regime = "VOLATILE" || regime = "TRENDING_UP" || regime = "TRENDING_DOWN" then true
  else if 25 < snap.iv_estimates || 70 < snap.iv_rank then true
  else false

/-- Models `_calculate_otm_distance`. -/
def calculate_otm_distance (spot iv_pct step : ℚ) : ℚ :=
  let iv := if iv_pct ≤ 0 then 15 else iv_pct
  pyMax ((pyRound (spot * iv / 100 / step) : ℚ) * step) step

/-- Models `_find_available_otm_strike`: strikes on the correct OTM side of ATM
(truthiness skips strike 0), first-minimum distance to the target, target
itself when the chain has no candidate. -/
def find_available_otm_strike (chain : List ChainRow) (target : ℚ)
    (ty : OptType) (atm : ℚ) : ℚ :=
  let avail := chain.filterMap (fun r =>
    if (!(r.strike == 0)) && (match ty with
                              | OptType.C => decide (atm ≤ r.strike)
                              | OptType.P => decide (r.strike ≤ atm)) = true
    then some r.strike else none)
  match avail with
  | [] => target
  | x :: xs => xs.foldl (fun best s =>
      if pyAbs (s - target) < pyAbs (best - target) then s else best) x

/-- Dict lookup in `self.otm_legs`. -/
def alGet (l : List (Instr × WingMeta)) (k : Instr) : Option WingMeta :=
  (l.find? (fun p => decide (p.1 = k))).map (fun p => p.2)

/-- Dict update `self.otm_legs[k] = v` for an existing key. -/
def alSet (l : List (Instr × WingMeta)) (k : Instr) (v : WingMeta) :
    List (Instr × WingMeta) :=
  l.map (fun p => if p.1 = k then (k, v) else p)

/-- Models `_add_otm_wings`: compute the two wing symbols and append a requested
entry plus a buy order for each one not already tracked (the put check
runs after the call insertion, as in the source). -/
def add_otm_wings (cfg : StratConfig) (snap : Snapshot)
    (legs : List (Instr × WingMeta)) :
    List (Instr × WingMeta) × List OrderReq :=
  let atm : ℚ := (snap.atm_strike : ℚ)
  let dist := calculate_otm_distance snap.spot snap.iv_estimates cfg.STRIKE_STEP
  let ceStrike := find_available_otm_strike snap.option_chain (atm + dist) OptType.C atm
  let peStrike := find_available_otm_strike snap.option_chain (atm - dist) OptType.P atm
  let ceI := build_option_symbol cfg ceStrike OptType.C
  let peI := build_option_symbol cfg peStrike OptType.P
  let ceLtp := getLtp snap.option_chain ceI
  let peLtp := getLtp snap.option_chain peI
  let s1 := if (alGet legs ceI).isSome then (legs, ([] : List OrderReq))
            else (legs ++ [(ceI, ⟨"requested", some ceLtp, none⟩)],
                  [⟨"buy", ceI, cfg.MESSAGE_LOTS⟩])
  let s2 := if (alGet s1.1 peI).isSome then (s1.1, ([] : List OrderReq))
            else (s1.1 ++ [(peI, ⟨"requested", some peLtp, none⟩)],
                  [⟨"buy", peI, cfg.MESSAGE_LOTS⟩])
  (s2.1, s1.2 ++ s2.2)

/-- Models `_remove_otm_wings`: a sell order for every tracked wing (the caller
clears the dict; the function itself pops every entry). -/
def remove_otm_wings (cfg : StratConfig) (legs : List (Instr × WingMeta)) :
    List OrderReq :=
  legs.map (fun p => ⟨"sell", p.1, cfg.MESSAGE_LOTS⟩)

/-- A wing's baseline for the emergency exit: entry price if filled, else
`requested_price or 0.0` (lines 178–182). -/
def wingBaseline (m : WingMeta) : ℚ :=
  match m.entry_price with
  | none => pyOr m.requested_price 0
  | some e => e

/-- Does the emergency exit fire for a tracked wing? (lines 183–186:
skip non-positive baselines, else compare the absolute percent move). -/
def wingFired (cfg : StratConfig) (chain : List ChainRow)
    (p : Instr × WingMeta) : Bool :=
  let b := wingBaseline p.2
  if b ≤ 0 then false
  else decide (cfg.OTM_EXIT_PCT ≤ pyAbs (((getLtp chain p.1 - b) / b) * 100))

/-- Step 5 of `on_tick` (wing emergency exit): the surviving wings and the
emitted sell orders, in tracking order. -/
def wing_exit_scan (cfg : StratConfig) (chain : List ChainRow)
    (legs : List (Instr × WingMeta)) :
    List (Instr × WingMeta) × List OrderReq :=
  (legs.filter (fun p => !(wingFired cfg chain p)),
   (legs.filter (fun p => wingFired cfg chain p)).map
     (fun p => ⟨"sell", p.1, cfg.MESSAGE_LOTS⟩))

/-- The tail of `on_tick` from step 5 on (lines 172–195). -/
def step5 (cfg : StratConfig) (chain : List ChainRow) (st : StratState) :
    StratState × Except Unit (Option TickAction) :=
  let sc := wing_exit_scan cfg chain st.otm_legs
  if sc.2.isEmpty then ({st with otm_legs := sc.1}, Except.ok none)
  else ({st with otm_legs := sc.1}, Except.ok (some ⟨"otm_exit", [], sc.2⟩))

/-- Step 4 of `on_tick` (wing lifecycle, lines 157–170), falling through
to `step5` when no lifecycle action fires. -/
def step4 (cfg : StratConfig) (snap : Snapshot) (st : StratState) :
    StratState × Except Unit (Option TickAction) :=
  if should_have_otm_wings snap snap.regime then
    if st.has_otm_wings = false then
      let a := add_otm_wings cfg snap st.otm_legs
      if a.2.isEmpty then step5 cfg snap.option_chain {st with otm_legs := a.1}
      else ({st with otm_legs := a.1, has_otm_wings := true},
            Except.ok (some ⟨"add_otm", [], a.2⟩))
    else step5 cfg snap.option_chain st
  else
    if st.has_otm_wings then
      let r := remove_otm_wings cfg st.otm_legs
      if r.isEmpty then step5 cfg snap.option_chain st
      else ({st with otm_legs := [], has_otm_wings := false},
            Except.ok (some ⟨"remove_otm", [], r⟩))
    else step5 cfg snap.option_chain st

/-- Models `on_tick(snapshot, position)`.  Mutations are threaded through the
returned state; `Except.error ()` models the `AttributeError` raised by
the expression `datetime.datetime.datetime.now()`: at line 127 whenever
`last_roll_time` is set, and at line 152 inside the roll branch (whose
orders are therefore built but never returned). -/
def on_tick (cfg : StratConfig) (st : StratState) (snap : Snapshot) (_now : ℚ) :
    StratState × Except Unit (Option TickAction) :=
  let t := computeLegs cfg snap.option_chain st.open_positions
  let st0 : StratState := {st with open_positions := t.1}
  let total := t.2.1 + t.2.2 + st.realized_ce_mtm + st.realized_pe_mtm
  if total ≤ -(cfg.STOPLOSS_PER_LOT * cfg.MESSAGE_LOTS * cfg.LOT_SIZE) then
    (st0, Except.ok (some ⟨"stoploss", t.1, []⟩))
  else if cfg.TARGET_PER_LOT * cfg.MESSAGE_LOTS * cfg.LOT_SIZE ≤ total then
    (st0, Except.ok (some ⟨"target", t.1, []⟩))
  else
    match st.last_roll_time with
    | some _ => (st0, Except.error ())
    | none =>
      if ce_should_roll cfg st0 snap || pe_should_roll cfg st0 snap then
        ({st0 with
            last_ce_action := if ce_should_roll cfg st0 snap then some "S"
                              else st.last_ce_action,
            last_pe_action := if pe_should_roll cfg st0 snap then some "S"
                              else st.last_pe_action,
            last_atm := some snap.atm_strike},
         Except.error ())
      else step4 cfg snap st0

/-- Models `enter(snapshot, params)`: creates the two requested legs and records
the ATM strike, then raises `AttributeError` at line 76
(`datetime.datetime.datetime.now()`), so `in_position`, the baselines and
the returned order payloads are never set/produced. -/
def enter (cfg : StratConfig) (st : StratState) (snap : Snapshot) :
    StratState × Except Unit (List OrderReq) :=
  let ceI := build_option_symbol cfg (snap.atm_strike : ℚ) OptType.C
  let peI := build_option_symbol cfg (snap.atm_strike : ℚ) OptType.P
  ({st with
      open_positions :=
        [⟨ceI, "S", none, snap.ce_ltp, cfg.MESSAGE_LOTS, 0, "requested"⟩,
         ⟨peI, "S", none, snap.pe_ltp, cfg.MESSAGE_LOTS, 0, "requested"⟩],
      last_atm := some snap.atm_strike},
   Except.error ())

/-- Models `exit(position, exits)`: buy back every tracked leg, sell every
tracked wing, and reset the local state to flat. -/
def exitAll (cfg : StratConfig) (st : StratState) :
    StratState × List OrderReq :=
  let o1 := st.open_positions.map (fun p =>
    (⟨"buy", p.instrument, p.quantity⟩ : OrderReq))
  let o2 := st.otm_legs.map (fun p =>
    (⟨"sell", p.1, cfg.MESSAGE_LOTS⟩ : OrderReq))
  ({st with open_positions := [], in_position := false, otm_legs := [],
            has_otm_wings := false, baseline_ce_ltp := none,
            baseline_pe_ltp := none, last_ce_action := none,
            last_pe_action := none, realized_ce_mtm := 0,
            realized_pe_mtm := 0},
   o1 ++ o2)

/-- Update the first matching open position (the loop in `confirm_fill`
breaks after the first hit); also reports whether a match was found. -/
def updateFirstLeg : List Leg → Instr → ℚ → List Leg × Bool
  | [], _, _ => ([], false)
  | p :: rest, i, px =>
    if p.instrument = i then
      ({p with entry_price := some px, state := "filled"} :: rest, true)
    else
      let r := updateFirstLeg rest i px
      (p :: r.1, r.2)

/-- Models `confirm_fill(instrument, fill_price)`: mark a matching leg and/or
wing as filled; an instrument matching neither is recorded as an orphaned
wing entry. -/
def confirm_fill (st : StratState) (instr : Instr) (px : ℚ) : StratState :=
  let lr := updateFirstLeg st.open_positions instr px
  let wings := match alGet st.otm_legs instr with
    | some m => alSet st.otm_legs instr {m with state := "filled", entry_price := some px}
    | none => st.otm_legs
  let found := lr.2 || (alGet st.otm_legs instr).isSome
  if found then {st with open_positions := lr.1, otm_legs := wings}
  else {st with open_positions := lr.1,
                otm_legs := st.otm_legs ++ [(instr, ⟨"filled", none, some px⟩)]}

/-- The reason of an action result, if a non-error action was returned. -/
def reasonOf : Except Unit (Option TickAction) → Option String
  | Except.ok (some a) => some a.reason
  | _ => none

/-- The orders of an action result (empty for `None` results and raised
calls). -/
def emittedOrders : Except Unit (Option TickAction) → List OrderReq
  | Except.ok (some a) => a.orders
  | _ => []

/-! ### Control Loop schedule handling (`src/orchestrator/master.py`) -/

/-- A processed schedule entry (`self._processed_schedule[idx]`): ordinal
id, time of day in seconds, optional percent label, final flag. -/
structure SchedEntry where
  id : Nat
  time : Nat
  pct : Option ℚ
  final : Bool
deriving DecidableEq, Repr

/-- A timezone-aware instant: calendar day number plus seconds of day. -/
structure NowDT where
  day : ℤ
  tod : Nat
deriving DecidableEq, Repr

/-- Models `self._executed_for_date`: date → executed schedule-entry ids. -/
abbrev ExecMap := List (ℤ × List Nat)

/-- Dict lookup with `set()` default. -/
def mapGet (m : ExecMap) (d : ℤ) : List Nat :=
  ((m.find? (fun p => p.1 == d)).map (fun p => p.2)).getD []

/-- Models `_should_run_schedule_entry`. -/
def should_run_schedule_entry (m : ExecMap) (e : SchedEntry) (now : NowDT) : Bool :=
  if e.id ∈ mapGet m now.day then false
  else if now.tod < e.time then false
  else true

/-- Models `executed_ids.add(id)` under `setdefault(today, set())`: update the
entry for the date in place if present, else append a fresh one. -/
def insertExec : ExecMap → ℤ → Nat → ExecMap
  | [], d, i => [(d, [i])]
  | p :: rest, d, i =>
    if p.1 = d then (p.1, if i ∈ p.2 then p.2 else p.2 ++ [i]) :: rest
    else p :: insertExec rest d i

/-- Models `_mark_schedule_executed`: record the id for today, then prune the map
to today and yesterday. -/
def mark_schedule_executed (m : ExecMap) (e : SchedEntry) (now : NowDT) : ExecMap :=
  (insertExec m now.day e.id).filter
    (fun p => p.1 == now.day || p.1 == now.day - 1)

/-- The schedule pass of `MasterOrchestrator.run` (lines 154–167): walk
the processed schedule in order; each due entry force-liquidates (its id
is appended to the returned list) and is marked executed; a final entry
stops the loop (`terminated = true`). -/
def schedulePass : List SchedEntry → ExecMap → NowDT → ExecMap × List Nat × Bool
  | [], m, _ => (m, [], false)
  | e :: rest, m, now =>
    if should_run_schedule_entry m e now then
      let m1 := mark_schedule_executed m e now
      if e.final then (m1, [e.id], true)
      else
        let r := schedulePass rest m1 now
        (r.1, e.id :: r.2.1, r.2.2)
    else schedulePass rest m now

/-! ### Reachability of strategy states through the public interface -/

/-- States reachable from `__init__` by any sequence of `enter`,
`on_tick`, `exit` and `confirm_fill` calls (raising calls still mutate). -/
inductive Reach (cfg : StratConfig) : StratState → Prop
  | init : Reach cfg initStratState
  | enterR (st : StratState) (snap : Snapshot) :
      Reach cfg st → Reach cfg (enter cfg st snap).1
  | tick (st : StratState) (snap : Snapshot) (now : ℚ) :
      Reach cfg st → Reach cfg (on_tick cfg st snap now).1
  | exitR (st : StratState) :
      Reach cfg st → Reach cfg (exitAll cfg st).1
  | confirm (st : StratState) (instr : Instr) (px : ℚ) :
      Reach cfg st → Reach cfg (confirm_fill st instr px)

/-- Like `Reach`, but excluding the two call shapes that change the wing
count by one: `on_tick` calls that fire the wing emergency exit, and
`confirm_fill` calls for an instrument matching no tracked leg or wing. -/
inductive ReachSafe (cfg : StratConfig) : StratState → Prop
  | init : ReachSafe cfg initStratState
  | enterR (st : StratState) (snap : Snapshot) :
      ReachSafe cfg st → ReachSafe cfg (enter cfg st snap).1
  | tick (st : StratState) (snap : Snapshot) (now : ℚ) :
      ReachSafe cfg st →
      reasonOf (on_tick cfg st snap now).2 ≠ some "otm_exit" →
      ReachSafe cfg (on_tick cfg st snap now).1
  | exitR (st : StratState) :
      ReachSafe cfg st → ReachSafe cfg (exitAll cfg st).1
  | confirm (st : StratState) (instr : Instr) (px : ℚ) :
      ReachSafe cfg st →
      ((updateFirstLeg st.open_positions instr px).2 = true ∨
        (alGet st.otm_legs instr).isSome = true) →
      ReachSafe cfg (confirm_fill st instr px)

/-! ### Concrete fixtures used by the claim theorems and witnesses -/

/-- A live-mode adapter configuration (webhook set, 3 retries, breaker
threshold 5, timeout 300 s). -/
def cfgW : ExecConfig := ⟨"w", 3, false, 5, 300⟩

/-- The same configuration in simulation mode. -/
def cfgSimW : ExecConfig := ⟨"w", 3, true, 5, 300⟩

/-- A fresh adapter state. -/
def st0A : AdapterState := ⟨0, none, CircuitState.CLOSED, []⟩

/-- An adapter state whose breaker opened at t = 0. -/
def stOpenA : AdapterState := ⟨5, some 0, CircuitState.OPEN, []⟩

/-- An adapter state in HALF_OPEN with two recorded failures. -/
def stHalfA : AdapterState := ⟨2, some 0, CircuitState.HALF_OPEN, []⟩

/-- A sample order dict. -/
def oW : Order := ⟨"SENSEX251023C75000", "sell", 1⟩

/-- A deterministic uuid oracle (eight hex characters). -/
def randA : Nat → String := fun _ => "aaaaaaaa"

/-- A network oracle that always answers HTTP 200. -/
def netOK : Nat → Nat → AttemptResult := fun _ _ => AttemptResult.resp 200 "ok"

/-- A network oracle that always answers HTTP 500. -/
def netFail : Nat → Nat → AttemptResult := fun _ _ => AttemptResult.resp 500 "err"

/-- An order-id parser that never finds an id. -/
def pIdNone : String → Option String := fun _ => none

/-- Repeated empty-batch `send_orders` calls against `cfgW` from a fresh
state (network oracle irrelevant: the batch is empty). -/
def iterEmpty : Nat → AdapterState
  | 0 => st0A
  | n + 1 => (send_orders cfgW (iterEmpty n) [] "t" "f" randA netFail pIdNone 0 "ts").state

/-- The idempotency keys of a three-order batch under `randA`. -/
def c5keys : List String := (List.range 3).map (fun i => mkKey "t" i (randA i))

/-- The strategy configuration used by the concrete scenes: strike step
100, lot size 20, one lot, stoploss 3000/lot, target 10000/lot, roll
threshold 5 %, buffer 10, wing-exit threshold 25 %. -/
def tcfg : StratConfig := ⟨100, 20, 1, 3000, 10000, 5, 10, "SENSEX", "2025-10-23", 25⟩

/-- The 75000 call symbol under `tcfg`. -/
def iCE75 : Instr := build_option_symbol tcfg 75000 OptType.C

/-- The 75000 put symbol under `tcfg`. -/
def iPE75 : Instr := build_option_symbol tcfg 75000 OptType.P

/-- The state presupposed by the spec's roll scene: a straddle requested
at ATM 75000 with baselines 200/190 recorded at t = 0. -/
def c1_state : StratState :=
  ⟨[⟨iCE75, "S", none, 200, 1, 0, "requested"⟩,
    ⟨iPE75, "S", none, 190, 1, 0, "requested"⟩],
   [], some 75000, some 0, true, false, some 200, some 190,
   some "S", some "S", 0, 0⟩

/-- The roll-scene snapshot 60 s later: ATM and spot at 75100, call LTP
215 (+7.5 %), put LTP unchanged at 190. -/
def c1_snap : Snapshot :=
  ⟨75100, 75100, 215, 190, 10, 50, "CALM",
   [⟨75000, some 215, some 190⟩, ⟨75100, some 205, some 185⟩]⟩

/-- A state with one filled short call (entry 5000) and a realized loss of
−70000: the spec-total MTM is 20000 (inside the ±bounds) while the code's
total is −70000. -/
def c4_state : StratState :=
  ⟨[⟨iCE75, "S", some 5000, 5000, 1, 0, "filled"⟩],
   [], some 75000, none, true, false, none, none, none, none, -70000, 0⟩

/-- The matching snapshot: the 75000 call now trades at 500, so the open
leg carries +90000 of unrealized MTM. -/
def c4_snap : Snapshot :=
  ⟨75000, 75000, 500, 400, 10, 50, "CALM", [⟨75000, some 500, some 400⟩]⟩

/-- The 76000 call wing symbol of the wing-exit scene. -/
def w6 : Instr := build_option_symbol tcfg 76000 OptType.C

/-- The wing-exit scene's wing: filled at 50. -/
def m6 : WingMeta := ⟨"filled", some 50, some 50⟩

/-- The wing-exit scene's state: no straddle legs, one tracked wing,
wings present, volatile regime keeps the lifecycle silent. -/
def c6_state : StratState :=
  ⟨[], [(w6, m6)], some 75000, none, true, true, none, none, none, none, 0, 0⟩

/-- The wing-exit scene's snapshot: the wing now trades at 65 (+30 %). -/
def c6_snap : Snapshot :=
  ⟨75000, 75000, 200, 190, 10, 50, "VOLATILE", [⟨76000, some 65, some 60⟩]⟩

/-- The 15:25 non-final schedule entry (seconds of day). -/
def e1525 : SchedEntry := ⟨0, 55500, some 5, false⟩

/-- The 15:29 final schedule entry. -/
def e1529 : SchedEntry := ⟨1, 55740, none, true⟩

/-- An instant on day 20000 at 15:25:00. -/
def now1525 : NowDT := ⟨20000, 55500⟩

/-- An instant on day 20000 at 15:29:00. -/
def now1529 : NowDT := ⟨20000, 55740⟩

/-- The state after a `confirm_fill` for an instrument matching no
tracked leg or wing: the orphan is recorded as a single wing entry. -/
def orphanState : StratState := confirm_fill initStratState iCE75 50

/-! ### Claim theorems -/

/-- Claim C1 (status: code_bug).  In the spec's roll scene — straddle
requested at ATM 75000 with call/put baselines 200/190 at t = 0; sixty
seconds later ATM and spot are 75100 and the call LTP is 215 — all four
roll conditions for the call side hold (the percent move is 7.5 % ≥ 5 %,
the spot moved 100 ≥ buffer 10, 60 s ≥ hold-time, and the ATM strike
changed) while the put side's move is below threshold; yet `on_tick` does
not return the roll action: it raises (`Except.error`), because the
hold-time check evaluates `datetime.datetime.datetime.now()`, which does
not exist.  The claimed single roll action `[buy 75000 C, sell 75100 C]`
is never produced. -/
theorem claim_C1 :
    tcfg.ROLL_PCT ≤ pyAbs (ce_change_pct c1_state c1_snap) ∧
    pyAbs (pe_change_pct c1_state c1_snap) < tcfg.ROLL_PCT ∧
    buffer_ok tcfg c1_state c1_snap = true ∧
    atm_changed c1_state c1_snap = true ∧
    c1_state.last_roll_time = some 0 ∧
    hold_time ≤ 60 - 0 ∧
    (on_tick tcfg c1_state c1_snap 60).2 = Except.error () := by decide

/-- Claim C4 (status: code_bug).  A state whose true total MTM
(unrealized per-leg MTM as the code itself computes it, plus realized) is
20000 — strictly inside the stop/target bounds ±60000/+200000 — and in
which no roll, wing-lifecycle or wing-emergency condition holds, yet
`on_tick` returns a "stoploss" action instead of none: the side
accumulators guarded by `endswith("C")`/`endswith("P")` never fire (the
symbols end in strike digits), so the compared total is the realized MTM
alone (−70000). -/
theorem claim_C4 :
    -(tcfg.STOPLOSS_PER_LOT * tcfg.MESSAGE_LOTS * tcfg.LOT_SIZE) <
      spec_total_mtm tcfg c4_state c4_snap ∧
    spec_total_mtm tcfg c4_state c4_snap <
      tcfg.TARGET_PER_LOT * tcfg.MESSAGE_LOTS * tcfg.LOT_SIZE ∧
    ce_should_roll tcfg c4_state c4_snap = false ∧
    pe_should_roll tcfg c4_state c4_snap = false ∧
    c4_state.last_roll_time = none ∧
    should_have_otm_wings c4_snap c4_snap.regime = false ∧
    c4_state.has_otm_wings = false ∧
    c4_state.otm_legs = [] ∧
    code_total_mtm tcfg c4_state c4_snap =
      c4_state.realized_ce_mtm + c4_state.realized_pe_mtm ∧
    reasonOf (on_tick tcfg c4_state c4_snap 0).2 = some "stoploss" := by decide

/-- Claim C8, counterexample.  A single `confirm_fill` call for an
instrument matching no tracked leg or wing is a legal call of the claimed
interface sequence, reaches a state through the public API, and leaves
exactly one tracked wing — a count that is neither zero nor even. -/
theorem claim_C8_counterexample :
    Reach tcfg orphanState ∧ orphanState.otm_legs.length = 1 ∧
    ¬(orphanState.otm_legs.length = 0 ∨ Even orphanState.otm_legs.length) :=
  ⟨Reach.confirm initStratState iCE75 50 Reach.init, by decide, by decide⟩

/-- Claim C9, counterexample.  For the same one-order batch, the live
successful-delivery response record contains the field
`idempotency_key` while the simulated response record does not, so the
two field sets differ. -/
theorem claim_C9_counterexample :
    "idempotency_key" ∈
      ((send_orders cfgW st0A [oW] "t" "f" randA netOK pIdNone 0 "ts").responses.headD []).map Prod.fst ∧
    "idempotency_key" ∉
      ((send_orders cfgSimW st0A [oW] "t" "f" randA netOK pIdNone 0 "ts").responses.headD []).map Prod.fst := by
  decide

/-! ### Helper lemmas: decimal rendering and idempotency keys -/

/-- Folding one trailing digit into `decVal`. -/
theorem decVal_append_digit (l : List Char) (c : Char) :
    decVal (l ++ [c]) = decVal l * 10 + (c.toNat - 48) := by
  simp [decVal, List.foldl_append]

/-- The code point of a digit character. -/
theorem digitChr_toNat (d : Nat) (h : d < 10) : (digitChr d).toNat = 48 + d := by
  interval_cases d <;> decide

/-- Lemma: `decReprAux` renders faithfully whenever it has enough fuel. -/
theorem decReprAux_val : ∀ fuel n, n ≤ fuel → decVal (decReprAux fuel n) = n := by
  intro fuel
  induction fuel with
  | zero =>
    intro n hn
    have : n = 0 := Nat.le_zero.mp hn
    subst this
    rfl
  | succ f ih =>
    intro n hn
    match n with
    | 0 => rfl
    | m + 1 =>
      have hdiv : (m + 1) / 10 ≤ f := by
        have := Nat.div_lt_self (Nat.succ_pos m) (by omega : 1 < 10)
        omega
      show decVal (decReprAux f ((m + 1) / 10) ++ [digitChr ((m + 1) % 10)]) = m + 1
      rw [decVal_append_digit, ih _ hdiv, digitChr_toNat _ (Nat.mod_lt _ (by omega))]
      omega

/-- Round trip: parsing the rendering of `n` gives back `n`. -/
theorem decVal_decRepr (n : Nat) : decVal (decRepr n) = n := by
  unfold decRepr
  split
  · subst ‹n = 0›; rfl
  · exact decReprAux_val n n le_rfl

/-- Decimal rendering is injective. -/
theorem decRepr_inj {m n : Nat} (h : decRepr m = decRepr n) : m = n := by
  rw [← decVal_decRepr m, ← decVal_decRepr n, h]

/-- The character-level shape of an idempotency key. -/
theorem mkKey_data (tag : String) (i : Nat) (s : String) :
    (mkKey tag i s).data = tag.data ++ ('-' :: (decRepr i ++ ('-' :: s.data))) := by
  show tag.data ++ ['-'] ++ decRepr i ++ ['-'] ++ s.data = _
  simp

/-- Two keys of the same batch (same tag, eight-character random
suffixes) with different order indices are distinct. -/
theorem mkKey_inj (tag : String) (i j : Nat) (si sj : String)
    (hi : si.length = 8) (hj : sj.length = 8)
    (h : mkKey tag i si = mkKey tag j sj) : i = j := by
  have hd := congrArg String.data h
  rw [mkKey_data, mkKey_data] at hd
  have h1 : decRepr i ++ ('-' :: si.data) = decRepr j ++ ('-' :: sj.data) :=
    List.cons_injective (List.append_cancel_left hd)
  have hsi : si.data.length = 8 := hi
  have hsj : sj.data.length = 8 := hj
  have hlen : (decRepr i).length = (decRepr j).length := by
    have := congrArg List.length h1
    simp at this
    omega
  exact decRepr_inj (List.append_inj h1 hlen).1

/-- Claim C5 (confirmed): within one (non-simulation) `send_orders` call
the idempotency keys are generated as `mkKey request_tag i (rand i)` for
the order indices `i`; for any batch size, any tag, and any family of
eight-character random suffixes, those keys are pairwise distinct. -/
theorem claim_C5 (tag : String) (rand : Nat → String) (n : Nat)
    (h8 : ∀ idx, (rand idx).length = 8) :
    ((List.range n).map (fun idx => mkKey tag idx (rand idx))).Pairwise
      (fun a b => a ≠ b) :=
  List.Nodup.map_on
    (fun x _ y _ hxy => mkKey_inj tag x y (rand x) (rand y) (h8 x) (h8 y) hxy)
    (List.nodup_range n)

/-- Witness for C5: the three keys of a concrete batch are distinct. -/
theorem claim_C5_witness : c5keys.Nodup :=
  claim_C5 "t" randA 3 (fun _ => rfl)

/-! ### Claims about the circuit breaker gate -/

/-- While OPEN with the timeout not yet elapsed, the breaker check
rejects and leaves the state untouched. -/
theorem check_rejects (cfg : ExecConfig) (st : AdapterState) (now : ℚ)
    (hOpen : st.circuit_state = CircuitState.OPEN)
    (hElapsed : now - st.circuit_open_time.getD 0 < cfg.circuit_breaker_timeout) :
    check_circuit_breaker cfg st now = (st, false) := by
  unfold check_circuit_breaker
  rw [hOpen]
  exact if_neg (by linarith)

/-- Claim C2 (confirmed): a `send_orders` call made while the breaker is
OPEN and strictly less than `circuit_breaker_timeout` seconds have
elapsed since `circuit_open_time` performs no network request
(`netCalls = 0`), registers no pending order (the state, including the
pending ledger, is returned unchanged), and returns
`anySucceeded = false` with an empty response list. -/
theorem claim_C2 (cfg : ExecConfig) (st : AdapterState) (orders : List Order)
    (tag fresh : String) (rand : Nat → String) (net : Nat → Nat → AttemptResult)
    (parseId : String → Option String) (now : ℚ) (nowIso : String)
    (hOpen : st.circuit_state = CircuitState.OPEN)
    (hElapsed : now - st.circuit_open_time.getD 0 < cfg.circuit_breaker_timeout) :
    send_orders cfg st orders tag fresh rand net parseId now nowIso =
      ⟨st, false, [], 0⟩ := by
  unfold send_orders
  rw [check_rejects cfg st now hOpen hElapsed]
  by_cases h : cfg.webhook_url = "" <;> simp [h]

/-- Witness for C2: breaker opened at t = 0, call at t = 10 with a
300-second timeout. -/
theorem claim_C2_witness :
    send_orders cfgW stOpenA [oW] "t" "f" randA netOK pIdNone 10 "ts" =
      ⟨stOpenA, false, [], 0⟩ :=
  claim_C2 cfgW stOpenA [oW] "t" "f" randA netOK pIdNone 10 "ts" rfl (by decide)

/-- The breaker check permits a call when the state is not OPEN, leaving
the state unchanged. -/
theorem check_nonopen (cfg : ExecConfig) (st : AdapterState) (now : ℚ)
    (h : st.circuit_state ≠ CircuitState.OPEN) :
    check_circuit_breaker cfg st now = (st, true) := by
  unfold check_circuit_breaker
  match hc : st.circuit_state with
  | CircuitState.OPEN => exact absurd hc h
  | CircuitState.CLOSED => rfl
  | CircuitState.HALF_OPEN => rfl

/-- Shape of `send_orders` in the live branch (webhook set, breaker
check passed, not simulating). -/
theorem send_orders_live (cfg : ExecConfig) (st : AdapterState) (orders : List Order)
    (tag fresh : String) (rand : Nat → String) (net : Nat → Nat → AttemptResult)
    (parseId : String → Option String) (now : ℚ) (nowIso : String)
    (hw : ¬cfg.webhook_url = "")
    (hcb : (check_circuit_breaker cfg st now).2 = true)
    (hsim : cfg.simulation_mode = false) :
    send_orders cfg st orders tag fresh rand net parseId now nowIso =
      ⟨(if (batchStep cfg rand net parseId (request_tag tag fresh) nowIso orders
            (check_circuit_breaker cfg st now).1.pending_orders).anySuccess then
          record_success
            {(check_circuit_breaker cfg st now).1 with
              pending_orders := (batchStep cfg rand net parseId (request_tag tag fresh)
                nowIso orders (check_circuit_breaker cfg st now).1.pending_orders).pending}
        else
          record_failure cfg
            {(check_circuit_breaker cfg st now).1 with
              pending_orders := (batchStep cfg rand net parseId (request_tag tag fresh)
                nowIso orders (check_circuit_breaker cfg st now).1.pending_orders).pending}
            now),
       (batchStep cfg rand net parseId (request_tag tag fresh) nowIso orders
         (check_circuit_breaker cfg st now).1.pending_orders).anySuccess,
       (batchStep cfg rand net parseId (request_tag tag fresh) nowIso orders
         (check_circuit_breaker cfg st now).1.pending_orders).responses,
       (batchStep cfg rand net parseId (request_tag tag fresh) nowIso orders
         (check_circuit_breaker cfg st now).1.pending_orders).calls⟩ := by
  simp only [send_orders]
  rw [if_neg hw, if_neg (by simp [hcb]), if_neg (by simp [hsim])]

/-- Shape of `send_orders` in the simulation branch. -/
theorem send_orders_sim (cfg : ExecConfig) (st : AdapterState) (orders : List Order)
    (tag fresh : String) (rand : Nat → String) (net : Nat → Nat → AttemptResult)
    (parseId : String → Option String) (now : ℚ) (nowIso : String)
    (hw : ¬cfg.webhook_url = "")
    (hcb : (check_circuit_breaker cfg st now).2 = true)
    (hsim : cfg.simulation_mode = true) :
    send_orders cfg st orders tag fresh rand net parseId now nowIso =
      ⟨(check_circuit_breaker cfg st now).1, true,
       (pyEnum orders).map (fun p => simRecord p.2 (rand p.1)), 0⟩ := by
  simp only [send_orders]
  rw [if_neg hw, if_neg (by simp [hcb]), if_pos hsim]

/-- Claim C3 (confirmed), in three parts.
(1) When the breaker is OPEN and strictly more than
`circuit_breaker_timeout` seconds have elapsed since `circuit_open_time`,
the breaker check run by the next `send_orders` call observes HALF_OPEN
and permits the attempt.
(2) A (non-simulation) batch with at least one successful delivery resets
`consecutive_failures` to zero, and turns a HALF_OPEN breaker CLOSED.
(3) Starting from a non-OPEN state, a `send_orders` call ends with the
breaker OPEN only if the failure counter has reached the configured
threshold. -/
theorem claim_C3 (cfg : ExecConfig) :
    (∀ (st : AdapterState) (now : ℚ),
      st.circuit_state = CircuitState.OPEN →
      cfg.circuit_breaker_timeout < now - st.circuit_open_time.getD 0 →
      check_circuit_breaker cfg st now =
        ({st with circuit_state := CircuitState.HALF_OPEN}, true)) ∧
    (∀ (st : AdapterState) (orders : List Order) (tag fresh : String)
       (rand : Nat → String) (net : Nat → Nat → AttemptResult)
       (parseId : String → Option String) (now : ℚ) (nowIso : String),
      cfg.simulation_mode = false →
      (send_orders cfg st orders tag fresh rand net parseId now nowIso).anySucceeded = true →
      (send_orders cfg st orders tag fresh rand net parseId now nowIso).state.consecutive_failures = 0 ∧
      ((check_circuit_breaker cfg st now).1.circuit_state = CircuitState.HALF_OPEN →
        (send_orders cfg st orders tag fresh rand net parseId now nowIso).state.circuit_state =
          CircuitState.CLOSED)) ∧
    (∀ (st : AdapterState) (orders : List Order) (tag fresh : String)
       (rand : Nat → String) (net : Nat → Nat → AttemptResult)
       (parseId : String → Option String) (now : ℚ) (nowIso : String),
      st.circuit_state ≠ CircuitState.OPEN →
      (send_orders cfg st orders tag fresh rand net parseId now nowIso).state.circuit_state =
        CircuitState.OPEN →
      cfg.circuit_breaker_threshold ≤
        (send_orders cfg st orders tag fresh rand net parseId now nowIso).state.consecutive_failures) := by
  refine ⟨?_, ?_, ?_⟩
  · intro st now hOpen hElapsed
    unfold check_circuit_breaker
    rw [hOpen]
    exact if_pos (by linarith)
  · intro st orders tag fresh rand net parseId now nowIso hsim hsucc
    by_cases hw : cfg.webhook_url = ""
    · simp [send_orders, hw] at hsucc
    · by_cases hcb : (check_circuit_breaker cfg st now).2 = true
      · rw [send_orders_live cfg st orders tag fresh rand net parseId now nowIso hw hcb hsim] at hsucc ⊢
        simp only at hsucc
        rw [hsucc]
        simp only [if_pos rfl]
        constructor
        · rfl
        · intro hhalf
          simp [record_success, hhalf]
      · have hcb' : (check_circuit_breaker cfg st now).2 = false := by
          revert hcb; cases (check_circuit_breaker cfg st now).2 <;> simp
        simp [send_orders, hw, hcb'] at hsucc
  · intro st orders tag fresh rand net parseId now nowIso hpre hfinal
    have hchk : check_circuit_breaker cfg st now = (st, true) := check_nonopen cfg st now hpre
    by_cases hw : cfg.webhook_url = ""
    · simp [send_orders, hw] at hfinal
      exact absurd hfinal hpre
    · by_cases hsim : cfg.simulation_mode = true
      · rw [send_orders_sim cfg st orders tag fresh rand net parseId now nowIso hw
            (by rw [hchk]) hsim] at hfinal
        rw [hchk] at hfinal
        exact absurd hfinal hpre
      · have hsim' : cfg.simulation_mode = false := by
          revert hsim; cases cfg.simulation_mode <;> simp
        rw [send_orders_live cfg st orders tag fresh rand net parseId now nowIso hw
            (by rw [hchk]) hsim'] at hfinal ⊢
        rw [hchk] at hfinal ⊢
        simp only at hfinal ⊢
        cases hb : (batchStep cfg rand net parseId (request_tag tag fresh) nowIso orders
            st.pending_orders).anySuccess
        · rw [hb] at hfinal
          rw [if_neg (by simp : ¬(false = true))] at hfinal ⊢
          unfold record_failure at hfinal ⊢
          by_cases hth : cfg.circuit_breaker_threshold ≤
              ({st with pending_orders := (batchStep cfg rand net parseId
                (request_tag tag fresh) nowIso orders st.pending_orders).pending} :
                AdapterState).consecutive_failures + 1
          · rw [if_pos hth] at hfinal ⊢
            exact hth
          · rw [if_neg hth] at hfinal
            exact absurd hfinal hpre
        · rw [hb] at hfinal
          rw [if_pos (rfl : true = true)] at hfinal
          unfold record_success at hfinal
          simp only at hfinal
          by_cases hh : ({st with pending_orders := (batchStep cfg rand net parseId
              (request_tag tag fresh) nowIso orders st.pending_orders).pending} :
              AdapterState).circuit_state = CircuitState.HALF_OPEN
          · rw [if_pos hh] at hfinal
            exact absurd hfinal (by simp)
          · rw [if_neg hh] at hfinal
            exact absurd hfinal hpre

/-- Witness for C3: part 1 at a breaker opened at t = 0 queried at
t = 400 with timeout 300; parts 2 and 3 at a concrete half-open / closed
state with a one-order batch that succeeds (part 2) and with the
vacuously-satisfiable OPEN-result hypothesis discharged by computation
(part 3 applied at a failing network where the final state stays
CLOSED is not possible, so part 3 is witnessed on a threshold-1
configuration driven OPEN by one failed batch). -/
theorem claim_C3_witness :
    check_circuit_breaker cfgW stOpenA 400 =
      ({stOpenA with circuit_state := CircuitState.HALF_OPEN}, true) ∧
    (send_orders cfgW stHalfA [oW] "t" "f" randA netOK pIdNone 400 "ts").state.consecutive_failures = 0 ∧
    (send_orders cfgW stHalfA [oW] "t" "f" randA netOK pIdNone 400 "ts").state.circuit_state =
      CircuitState.CLOSED ∧
    1 ≤ (send_orders ⟨"w", 1, false, 1, 300⟩ st0A [oW] "t" "f" randA netFail pIdNone 0 "ts").state.consecutive_failures := by
  have h1 := (claim_C3 cfgW).1 stOpenA 400 rfl (by decide)
  have h2 := (claim_C3 cfgW).2.1 stHalfA [oW] "t" "f" randA netOK pIdNone 400 "ts" rfl (by decide)
  have h3 := (claim_C3 ⟨"w", 1, false, 1, 300⟩).2.2 st0A [oW] "t" "f" randA netFail pIdNone 0 "ts"
    (by decide) (by decide)
  exact ⟨h1, h2.1, h2.2 (by decide), h3⟩

/-- Claim C10 (confirmed): an empty-batch `send_orders` call in live mode
(webhook configured, breaker check passing) returns
`anySucceeded = false` with no responses and no network calls, and its
final state is exactly `record_failure` applied after the (empty) batch —
the same failure bookkeeping as an all-failed batch, incrementing
`consecutive_failures` by one.  Consequently repeated empty-batch calls
alone drive a threshold-5 breaker OPEN in five calls, as the concrete
`iterEmpty` run shows. -/
theorem claim_C10 (cfg : ExecConfig) (st : AdapterState) (tag fresh : String)
    (rand : Nat → String) (net : Nat → Nat → AttemptResult)
    (parseId : String → Option String) (now : ℚ) (nowIso : String)
    (hw : ¬cfg.webhook_url = "")
    (hcb : (check_circuit_breaker cfg st now).2 = true)
    (hsim : cfg.simulation_mode = false) :
    (send_orders cfg st [] tag fresh rand net parseId now nowIso).anySucceeded = false ∧
    (send_orders cfg st [] tag fresh rand net parseId now nowIso).responses = [] ∧
    (send_orders cfg st [] tag fresh rand net parseId now nowIso).netCalls = 0 ∧
    (send_orders cfg st [] tag fresh rand net parseId now nowIso).state =
      record_failure cfg (check_circuit_breaker cfg st now).1 now ∧
    (send_orders cfg st [] tag fresh rand net parseId now nowIso).state.consecutive_failures =
      (check_circuit_breaker cfg st now).1.consecutive_failures + 1 ∧
    (iterEmpty 5).circuit_state = CircuitState.OPEN ∧
    (iterEmpty 4).consecutive_failures = 4 ∧ (iterEmpty 4).circuit_state = CircuitState.CLOSED := by
  have hbatch : batchStep cfg rand net parseId (request_tag tag fresh) nowIso []
      (check_circuit_breaker cfg st now).1.pending_orders =
      ⟨[], (check_circuit_breaker cfg st now).1.pending_orders, false, 0⟩ := rfl
  rw [send_orders_live cfg st [] tag fresh rand net parseId now nowIso hw hcb hsim]
  rw [hbatch]
  refine ⟨rfl, rfl, rfl, ?_, ?_, by decide, by decide, by decide⟩
  · simp only [if_neg (by simp : ¬(false = true))]
  · simp only [if_neg (by simp : ¬(false = true))]
    unfold record_failure
    by_cases hth : cfg.circuit_breaker_threshold ≤
        ({(check_circuit_breaker cfg st now).1 with
          pending_orders := (check_circuit_breaker cfg st now).1.pending_orders} :
          AdapterState).consecutive_failures + 1
    · rw [if_pos hth]
    · rw [if_neg hth]

/-- Witness for C10: one empty-batch call from a fresh live state. -/
theorem claim_C10_witness :
    (send_orders cfgW st0A [] "t" "f" randA netFail pIdNone 0 "ts").anySucceeded = false ∧
    (send_orders cfgW st0A [] "t" "f" randA netFail pIdNone 0 "ts").responses = [] ∧
    (send_orders cfgW st0A [] "t" "f" randA netFail pIdNone 0 "ts").netCalls = 0 ∧
    (send_orders cfgW st0A [] "t" "f" randA netFail pIdNone 0 "ts").state =
      record_failure cfgW (check_circuit_breaker cfgW st0A 0).1 0 ∧
    (send_orders cfgW st0A [] "t" "f" randA netFail pIdNone 0 "ts").state.consecutive_failures =
      (check_circuit_breaker cfgW st0A 0).1.consecutive_failures + 1 ∧
    (iterEmpty 5).circuit_state = CircuitState.OPEN ∧
    (iterEmpty 4).consecutive_failures = 4 ∧ (iterEmpty 4).circuit_state = CircuitState.CLOSED :=
  claim_C10 cfgW st0A "t" "f" randA netFail pIdNone 0 "ts" (by decide) rfl rfl

/-- The field names of a simulated response record. -/
theorem simRecord_fields (o : Order) (s : String) :
    (simRecord o s).map Prod.fst =
      ["order", "status", "simulated", "success", "order_id", "response"] := rfl

/-- The field names of a live successful-delivery response record. -/
theorem liveSuccessRecord_fields (o : Order) (status : Nat) (oid : Option String)
    (key body : String) :
    (liveSuccessRecord o status oid key body).map Prod.fst =
      ["order", "status", "success", "order_id", "idempotency_key",
       "response", "simulated"] := rfl

/-- Claim C9 (corrected; see `claim_C9_counterexample` for the failing
"exact same set of fields" part).  In simulation mode (webhook set,
breaker check passing) `send_orders` performs no network call and
returns `anySucceeded = true` with exactly one success record per order,
each carrying a generated `SIM-` order id; and every simulated record's
field set equals the live successful-delivery field set MINUS
`idempotency_key`. -/
theorem claim_C9 (cfg : ExecConfig) (st : AdapterState) (orders : List Order)
    (tag fresh : String) (rand : Nat → String) (net : Nat → Nat → AttemptResult)
    (parseId : String → Option String) (now : ℚ) (nowIso : String)
    (hw : ¬cfg.webhook_url = "")
    (hcb : (check_circuit_breaker cfg st now).2 = true)
    (hsim : cfg.simulation_mode = true) :
    (send_orders cfg st orders tag fresh rand net parseId now nowIso).netCalls = 0 ∧
    (send_orders cfg st orders tag fresh rand net parseId now nowIso).anySucceeded = true ∧
    (send_orders cfg st orders tag fresh rand net parseId now nowIso).responses =
      (pyEnum orders).map (fun p => simRecord p.2 (rand p.1)) ∧
    (send_orders cfg st orders tag fresh rand net parseId now nowIso).responses.length =
      orders.length ∧
    (∀ r ∈ (send_orders cfg st orders tag fresh rand net parseId now nowIso).responses,
      ∀ k : String,
        k ∈ r.map Prod.fst ↔
          (k ∈ (liveSuccessRecord oW 200 none "" "").map Prod.fst ∧
            k ≠ "idempotency_key")) := by
  rw [send_orders_sim cfg st orders tag fresh rand net parseId now nowIso hw hcb hsim]
  refine ⟨rfl, rfl, rfl, ?_, ?_⟩
  · simp [pyEnum]
  · intro r hr k
    simp only [List.mem_map] at hr
    obtain ⟨p, _, hp⟩ := hr
    rw [← hp, simRecord_fields, liveSuccessRecord_fields]
    constructor
    · intro hk
      simp only [List.mem_cons, List.not_mem_nil, or_false] at hk
      rcases hk with rfl | rfl | rfl | rfl | rfl | rfl <;> simp
    · rintro ⟨hk, hne⟩
      simp only [List.mem_cons, List.not_mem_nil, or_false] at hk
      rcases hk with rfl | rfl | rfl | rfl | rfl | rfl | rfl <;> simp_all

/-- Witness for C9: one simulated order. -/
theorem claim_C9_witness :
    (send_orders cfgSimW st0A [oW] "t" "f" randA netOK pIdNone 0 "ts").netCalls = 0 ∧
    (send_orders cfgSimW st0A [oW] "t" "f" randA netOK pIdNone 0 "ts").anySucceeded = true ∧
    (send_orders cfgSimW st0A [oW] "t" "f" randA netOK pIdNone 0 "ts").responses =
      [simRecord oW "aaaaaaaa"] ∧
    "order_id" ∈ (simRecord oW "aaaaaaaa").map Prod.fst := by
  have h := claim_C9 cfgSimW st0A [oW] "t" "f" randA netOK pIdNone 0 "ts"
    (by decide) rfl rfl
  refine ⟨h.1, h.2.1, ?_, by decide⟩
  rw [h.2.2.1]
  rfl

/-! ### Helper lemmas: the execution-marker map -/

/-- Lookup at a matching head entry. -/
theorem mapGet_cons_pos (x : ℤ × List Nat) (rest : ExecMap) (d : ℤ) (h : x.1 = d) :
    mapGet (x :: rest) d = x.2 := by
  unfold mapGet
  rw [List.find?_cons_of_pos _ (by simp [h])]
  rfl

/-- Lookup skipping a non-matching head entry. -/
theorem mapGet_cons_neg (x : ℤ × List Nat) (rest : ExecMap) (d : ℤ) (h : x.1 ≠ d) :
    mapGet (x :: rest) d = mapGet rest d := by
  unfold mapGet
  rw [List.find?_cons_of_neg _ (by simp [h])]

/-- Recording an id makes it a member of that date's executed set. -/
theorem mem_mapGet_insertExec (m : ExecMap) (d : ℤ) (i : Nat) :
    i ∈ mapGet (insertExec m d i) d := by
  induction m with
  | nil =>
    rw [show insertExec [] d i = [(d, [i])] from rfl, mapGet_cons_pos _ _ _ rfl]
    simp
  | cons p rest ih =>
    by_cases h : p.1 = d
    · rw [show insertExec (p :: rest) d i =
          (p.1, if i ∈ p.2 then p.2 else p.2 ++ [i]) :: rest by simp [insertExec, h],
        mapGet_cons_pos _ _ _ (show (p.1, if i ∈ p.2 then p.2 else p.2 ++ [i]).1 = d from h)]
      split
      · assumption
      · simp
    · rw [show insertExec (p :: rest) d i = p :: insertExec rest d i by
          simp [insertExec, h],
        mapGet_cons_neg _ _ _ h]
      exact ih

/-- Pruning to today and yesterday does not change today's executed set. -/
theorem mapGet_pruned (m : ExecMap) (d : ℤ) :
    mapGet (m.filter (fun p => p.1 == d || p.1 == d - 1)) d = mapGet m d := by
  induction m with
  | nil => rfl
  | cons p rest ih =>
    by_cases h : p.1 = d
    · rw [List.filter_cons_of_pos (by simp [h]), mapGet_cons_pos _ _ _ h,
        mapGet_cons_pos _ _ _ h]
    · by_cases h2 : p.1 = d - 1
      · rw [List.filter_cons_of_pos (by simp [h2]), mapGet_cons_neg _ _ _ h,
          mapGet_cons_neg _ _ _ h]
        exact ih
      · rw [List.filter_cons_of_neg (by simp [h, h2]), mapGet_cons_neg _ _ _ h]
        exact ih

/-- Claim C7 (confirmed), in three parts.
(1) Once the loop marks a due entry executed, the should-fire check for
that same entry returns false at any later instant of the same date.
(2) A due entry flagged final makes the schedule pass liquidate it
(its id is recorded), mark it, and terminate without visiting the rest.
(3) After any marking, the retained per-date markers are only those for
today and yesterday. -/
theorem claim_C7 :
    (∀ (m : ExecMap) (e : SchedEntry) (now now2 : NowDT), now2.day = now.day →
      should_run_schedule_entry (mark_schedule_executed m e now) e now2 = false) ∧
    (∀ (m : ExecMap) (e : SchedEntry) (rest : List SchedEntry) (now : NowDT),
      should_run_schedule_entry m e now = true → e.final = true →
      schedulePass (e :: rest) m now = (mark_schedule_executed m e now, [e.id], true)) ∧
    (∀ (m : ExecMap) (e : SchedEntry) (now : NowDT) (d : ℤ),
      d ∈ (mark_schedule_executed m e now).map Prod.fst →
      d = now.day ∨ d = now.day - 1) := by
  refine ⟨?_, ?_, ?_⟩
  · intro m e now now2 hday
    have hmem : e.id ∈ mapGet (mark_schedule_executed m e now) now2.day := by
      rw [hday]
      unfold mark_schedule_executed
      rw [mapGet_pruned]
      exact mem_mapGet_insertExec m now.day e.id
    unfold should_run_schedule_entry
    rw [if_pos hmem]
  · intro m e rest now hrun hfin
    unfold schedulePass
    rw [hrun]
    simp [hfin]
  · intro m e now d hd
    unfold mark_schedule_executed at hd
    rcases List.mem_map.mp hd with ⟨p, hp, hpd⟩
    have hkeep := (List.mem_filter.mp hp).2
    simp only [Bool.or_eq_true, beq_iff_eq] at hkeep
    rcases hkeep with h | h
    · exact Or.inl (hpd ▸ h)
    · exact Or.inr (hpd ▸ h)

/-- Witness for C7: the spec's 15:25 (non-final) and 15:29 (final)
entries on one concrete day. -/
theorem claim_C7_witness :
    should_run_schedule_entry (mark_schedule_executed [] e1525 now1525) e1525 now1529 = false ∧
    schedulePass [e1529] (mark_schedule_executed [] e1525 now1525) now1529 =
      (mark_schedule_executed (mark_schedule_executed [] e1525 now1525) e1529 now1529,
       [e1529.id], true) ∧
    ((20000 : ℤ) = now1525.day ∨ (20000 : ℤ) = now1525.day - 1) :=
  ⟨claim_C7.1 [] e1525 now1525 now1529 rfl,
   claim_C7.2.1 (mark_schedule_executed [] e1525 now1525) e1529 [] now1529
     (by decide) rfl,
   claim_C7.2.2 [] e1525 now1525 20000 (by decide)⟩

/-! ### Helper lemmas: symbols end in a digit, so the side accumulators
of `computeLegs` never fire -/

/-- The rendering of a natural number is never empty. -/
theorem decRepr_ne_nil (n : Nat) : decRepr n ≠ [] := by
  unfold decRepr
  split
  · simp
  · match n, ‹¬n = 0› with
    | m + 1, _ =>
      show decReprAux m ((m + 1) / 10) ++ [digitChr ((m + 1) % 10)] ≠ []
      simp

/-- The last character of a rendered natural number is a digit. -/
theorem decRepr_getLast (n : Nat) :
    ∃ d, d < 10 ∧ (decRepr n).getLast? = some (digitChr d) := by
  unfold decRepr
  split
  · exact ⟨0, by omega, rfl⟩
  · match n, ‹¬n = 0› with
    | m + 1, _ =>
      refine ⟨(m + 1) % 10, Nat.mod_lt _ (by omega), ?_⟩
      exact List.getLast?_concat _

/-- The last character of a rendered integer is a digit. -/
theorem intRepr_getLast (z : ℤ) :
    ∃ d, d < 10 ∧ (intRepr z).getLast? = some (digitChr d) := by
  unfold intRepr
  obtain ⟨d, hd, hlast⟩ := decRepr_getLast z.natAbs
  refine ⟨d, hd, ?_⟩
  split
  · rcases hnil : decRepr z.natAbs with _ | ⟨c, l⟩
    · exact absurd hnil (decRepr_ne_nil _)
    · rw [List.getLast?_cons_cons]
      rw [hnil] at hlast
      exact hlast
  · exact hlast

/-- The rendering of an integer is never empty. -/
theorem intRepr_ne_nil (z : ℤ) : intRepr z ≠ [] := by
  unfold intRepr
  split
  · simp
  · exact decRepr_ne_nil _

/-- Lemma: `getLast?` of an append with a nonempty right part. -/
theorem getLast?_append_right {α : Type} (l₁ l₂ : List α) (h : l₂ ≠ []) :
    (l₁ ++ l₂).getLast? = l₂.getLast? := by
  rcases List.eq_nil_or_concat l₂ with rfl | ⟨l', a, rfl⟩
  · exact absurd rfl h
  · rw [List.concat_eq_append, ← List.append_assoc, List.getLast?_concat,
      List.getLast?_concat]

/-- A structured symbol never ends with `C` or `P`: its last character is
a strike digit. -/
theorem endsWithChar_CP (i : Instr) :
    endsWithChar i 'C' = false ∧ endsWithChar i 'P' = false := by
  obtain ⟨d, hd, hlast⟩ := intRepr_getLast i.strike
  have hrender : (renderInstr i).getLast? = some (digitChr d) := by
    unfold renderInstr
    rw [List.append_assoc, List.append_assoc,
      getLast?_append_right _ _ (by simp [intRepr_ne_nil i.strike]),
      getLast?_append_right _ _ (by simp [intRepr_ne_nil i.strike]),
      getLast?_append_right _ _ (intRepr_ne_nil i.strike)]
    exact hlast
  have htoNat := digitChr_toNat d hd
  constructor
  · unfold endsWithChar
    rw [hrender]
    simp only [beq_eq_false_iff_ne, ne_eq, Option.some.injEq]
    intro hC
    have : (digitChr d).toNat = 67 := by rw [hC]; rfl
    omega
  · unfold endsWithChar
    rw [hrender]
    simp only [beq_eq_false_iff_ne, ne_eq, Option.some.injEq]
    intro hP
    have : (digitChr d).toNat = 80 := by rw [hP]; rfl
    omega

/-- Lemma: `computeLegs` in closed form: it overwrites each leg's `mtm` with the
per-leg MTM and leaves both side accumulators at zero (the `endswith`
guards never match). -/
theorem computeLegs_eq (cfg : StratConfig) (chain : List ChainRow) (legs : List Leg) :
    computeLegs cfg chain legs =
      (legs.map (fun p => {p with mtm := legMtm cfg chain p}), 0, 0) := by
  suffices h : ∀ (l : List Leg) (acc : List Leg) (ce pe : ℚ),
      l.foldl (computeLegsStep cfg chain) (acc, ce, pe) =
        (acc ++ l.map (fun p => {p with mtm := legMtm cfg chain p}), ce, pe) by
    have := h legs [] 0 0
    simpa [computeLegs] using this
  intro l
  induction l with
  | nil => intro acc ce pe; simp
  | cons pos rest ih =>
    intro acc ce pe
    rw [List.foldl_cons]
    have hstep : computeLegsStep cfg chain (acc, ce, pe) pos =
        (acc ++ [{pos with mtm := legMtm cfg chain pos}], ce, pe) := by
      unfold computeLegsStep
      rcases hC : pos.entry_price with _ | e
      · simp only []
        rw [show legMtm cfg chain pos = 0 by unfold legMtm; rw [hC]]
      · simp only []
        by_cases he : e = 0
        · rw [if_pos he]
          rw [show legMtm cfg chain pos = 0 by unfold legMtm; rw [hC]; exact if_pos he]
        · rw [if_neg he, (endsWithChar_CP pos.instrument).1,
            (endsWithChar_CP pos.instrument).2]
          simp
    rw [hstep, ih]
    simp

/-- The total MTM `on_tick` compares against the bounds is the realized
MTM alone. -/
theorem code_total_realized (cfg : StratConfig) (st : StratState) (snap : Snapshot) :
    code_total_mtm cfg st snap = st.realized_ce_mtm + st.realized_pe_mtm := by
  unfold code_total_mtm
  rw [computeLegs_eq]
  ring

/-! ### Helper lemmas: `on_tick` branch reductions -/

/-- The roll predicates ignore `open_positions` and `otm_legs`. -/
theorem ce_should_roll_update (cfg : StratConfig) (st : StratState)
    (snap : Snapshot) (l : List Leg) :
    ce_should_roll cfg {st with open_positions := l} snap =
      ce_should_roll cfg st snap := rfl

theorem pe_should_roll_update (cfg : StratConfig) (st : StratState)
    (snap : Snapshot) (l : List Leg) :
    pe_should_roll cfg {st with open_positions := l} snap =
      pe_should_roll cfg st snap := rfl

theorem ce_should_roll_update2 (cfg : StratConfig) (st : StratState)
    (snap : Snapshot) (l : List Leg) (w : List (Instr × WingMeta)) :
    ce_should_roll cfg {st with open_positions := l, otm_legs := w} snap =
      ce_should_roll cfg st snap := rfl

theorem pe_should_roll_update2 (cfg : StratConfig) (st : StratState)
    (snap : Snapshot) (l : List Leg) (w : List (Instr × WingMeta)) :
    pe_should_roll cfg {st with open_positions := l, otm_legs := w} snap =
      pe_should_roll cfg st snap := rfl

theorem ce_should_roll_update3 (cfg : StratConfig) (st : StratState)
    (snap : Snapshot) (l : List Leg) (r : Option ℚ) :
    ce_should_roll cfg {st with open_positions := l, last_roll_time := r} snap =
      ce_should_roll cfg st snap := rfl

theorem pe_should_roll_update3 (cfg : StratConfig) (st : StratState)
    (snap : Snapshot) (l : List Leg) (r : Option ℚ) :
    pe_should_roll cfg {st with open_positions := l, last_roll_time := r} snap =
      pe_should_roll cfg st snap := rfl

/-- With the stop/target bounds strictly avoided, no roll time recorded
(so line 127 does not raise) and the roll conditions false, `on_tick`
falls through to the wing logic on the mtm-updated state. -/
theorem on_tick_no_trigger (cfg : StratConfig) (st : StratState) (snap : Snapshot)
    (now : ℚ)
    (h1 : -(cfg.STOPLOSS_PER_LOT * cfg.MESSAGE_LOTS * cfg.LOT_SIZE) <
      code_total_mtm cfg st snap)
    (h2 : code_total_mtm cfg st snap <
      cfg.TARGET_PER_LOT * cfg.MESSAGE_LOTS * cfg.LOT_SIZE)
    (hlr : st.last_roll_time = none)
    (hce : ce_should_roll cfg st snap = false)
    (hpe : pe_should_roll cfg st snap = false) :
    on_tick cfg st snap now =
      step4 cfg snap
        {st with open_positions :=
          (computeLegs cfg snap.option_chain st.open_positions).1} := by
  have h1' : ¬((computeLegs cfg snap.option_chain st.open_positions).2.1 +
      (computeLegs cfg snap.option_chain st.open_positions).2.2 +
      st.realized_ce_mtm + st.realized_pe_mtm ≤
      -(cfg.STOPLOSS_PER_LOT * cfg.MESSAGE_LOTS * cfg.LOT_SIZE)) := by
    unfold code_total_mtm at h1
    linarith
  have h2' : ¬(cfg.TARGET_PER_LOT * cfg.MESSAGE_LOTS * cfg.LOT_SIZE ≤
      (computeLegs cfg snap.option_chain st.open_positions).2.1 +
      (computeLegs cfg snap.option_chain st.open_positions).2.2 +
      st.realized_ce_mtm + st.realized_pe_mtm) := by
    unfold code_total_mtm at h2
    linarith
  unfold on_tick
  simp only [if_neg h1', if_neg h2', hlr]
  rw [ce_should_roll_update3, pe_should_roll_update3, hce, hpe]
  simp only [Bool.or_self, Bool.false_eq_true, if_false, hlr]

/-- Lemma: `step4` reduces to the wing emergency scan when wings should exist
and already do. -/
theorem step4_has (cfg : StratConfig) (snap : Snapshot) (s : StratState)
    (hsh : should_have_otm_wings snap snap.regime = true)
    (hhs : s.has_otm_wings = true) :
    step4 cfg snap s = step5 cfg snap.option_chain s := by
  unfold step4
  rw [hsh, hhs]
  simp

/-- The state returned by `step5`. -/
theorem step5_state (cfg : StratConfig) (chain : List ChainRow) (s : StratState) :
    (step5 cfg chain s).1 =
      {s with otm_legs :=
        s.otm_legs.filter (fun p => !(wingFired cfg chain p))} := by
  simp only [step5, wing_exit_scan]
  split <;> rfl

/-- The orders emitted by `step5`. -/
theorem step5_orders (cfg : StratConfig) (chain : List ChainRow) (s : StratState) :
    emittedOrders (step5 cfg chain s).2 =
      (s.otm_legs.filter (fun p => wingFired cfg chain p)).map
        (fun p => (⟨"sell", p.1, cfg.MESSAGE_LOTS⟩ : OrderReq)) := by
  simp only [step5, wing_exit_scan]
  split
  · next hemp =>
    unfold emittedOrders
    rw [List.isEmpty_iff] at hemp
    exact hemp.symm
  · rfl

/-- Entries of a key-nodup association list agree when their keys do. -/
theorem nodup_key_unique {l : List (Instr × WingMeta)}
    (h : (l.map Prod.fst).Nodup) {a b : Instr × WingMeta}
    (ha : a ∈ l) (hb : b ∈ l) (hk : a.1 = b.1) : a = b := by
  induction l with
  | nil => cases ha
  | cons x rest ih =>
    rw [List.map_cons, List.nodup_cons] at h
    rcases List.mem_cons.mp ha with rfl | ha2 <;>
      rcases List.mem_cons.mp hb with rfl | hb2
    · rfl
    · exact absurd (by rw [hk]; exact List.mem_map_of_mem Prod.fst hb2) h.1
    · exact absurd (by rw [← hk]; exact List.mem_map_of_mem Prod.fst ha2) h.1
    · exact ih h.2 ha2 hb2

/-- Claim C6 (confirmed): with the earlier triggers silent — total MTM
strictly inside the bounds, no roll time recorded, roll conditions false,
and the wing lifecycle idle (wings should exist and do) — `on_tick`
emits a sell for a tracked wing exactly when its absolute percent move
from its baseline reaches the exit threshold; a fired wing is removed
from tracking in the same call, and a second `on_tick` on the identical
snapshot emits no order for that instrument. -/
theorem claim_C6 (cfg : StratConfig) (st : StratState) (snap : Snapshot) (now : ℚ)
    (w : Instr) (m : WingMeta)
    (hw : (w, m) ∈ st.otm_legs)
    (hnd : (st.otm_legs.map Prod.fst).Nodup)
    (hb : 0 < wingBaseline m)
    (h1 : -(cfg.STOPLOSS_PER_LOT * cfg.MESSAGE_LOTS * cfg.LOT_SIZE) <
      code_total_mtm cfg st snap)
    (h2 : code_total_mtm cfg st snap <
      cfg.TARGET_PER_LOT * cfg.MESSAGE_LOTS * cfg.LOT_SIZE)
    (hlr : st.last_roll_time = none)
    (hce : ce_should_roll cfg st snap = false)
    (hpe : pe_should_roll cfg st snap = false)
    (hsh : should_have_otm_wings snap snap.regime = true)
    (hhs : st.has_otm_wings = true) :
    ((⟨"sell", w, cfg.MESSAGE_LOTS⟩ : OrderReq) ∈
        emittedOrders (on_tick cfg st snap now).2 ↔
      wingFired cfg snap.option_chain (w, m) = true) ∧
    (wingFired cfg snap.option_chain (w, m) = true →
      (∀ m2 : WingMeta, (w, m2) ∉ (on_tick cfg st snap now).1.otm_legs) ∧
      ∀ o ∈ emittedOrders (on_tick cfg (on_tick cfg st snap now).1 snap now).2,
        o.instrument ≠ w) := by
  have hred : on_tick cfg st snap now =
      step5 cfg snap.option_chain
        {st with open_positions :=
          (computeLegs cfg snap.option_chain st.open_positions).1} := by
    rw [on_tick_no_trigger cfg st snap now h1 h2 hlr hce hpe]
    exact step4_has cfg snap _ hsh hhs
  have hred1 : (on_tick cfg st snap now).1 =
      {st with
        open_positions := (computeLegs cfg snap.option_chain st.open_positions).1,
        otm_legs := st.otm_legs.filter
          (fun p => !(wingFired cfg snap.option_chain p))} := by
    rw [hred, step5_state]
  refine ⟨⟨?_, ?_⟩, ?_⟩
  · intro hmem
    rw [hred, step5_orders] at hmem
    rcases List.mem_map.mp hmem with ⟨p, hpf, hps⟩
    have hpk : p.1 = w := congrArg OrderReq.instrument hps
    have hpl : p ∈ st.otm_legs := (List.mem_filter.mp hpf).1
    have hpm : p = (w, m) := nodup_key_unique hnd hpl hw hpk
    have hfired := (List.mem_filter.mp hpf).2
    rwa [hpm] at hfired
  · intro hfired
    rw [hred, step5_orders]
    exact List.mem_map_of_mem _ (List.mem_filter.mpr ⟨hw, hfired⟩)
  · intro hfired
    constructor
    · intro m2 hm2
      rw [hred1] at hm2
      have hmem : (w, m2) ∈ st.otm_legs := (List.mem_filter.mp hm2).1
      have hnot := (List.mem_filter.mp hm2).2
      have heq : (w, m2) = (w, m) := nodup_key_unique hnd hmem hw rfl
      rw [heq] at hnot
      rw [hfired] at hnot
      simp at hnot
    · intro o ho
      have h1b : -(cfg.STOPLOSS_PER_LOT * cfg.MESSAGE_LOTS * cfg.LOT_SIZE) <
          code_total_mtm cfg (on_tick cfg st snap now).1 snap := by
        rw [code_total_realized] at h1 ⊢
        rw [hred1]
        exact h1
      have h2b : code_total_mtm cfg (on_tick cfg st snap now).1 snap <
          cfg.TARGET_PER_LOT * cfg.MESSAGE_LOTS * cfg.LOT_SIZE := by
        rw [code_total_realized] at h2 ⊢
        rw [hred1]
        exact h2
      have hlrb : (on_tick cfg st snap now).1.last_roll_time = none := by
        rw [hred1]
        exact hlr
      have hceb : ce_should_roll cfg (on_tick cfg st snap now).1 snap = false := by
        rw [hred1, ce_should_roll_update2]
        exact hce
      have hpeb : pe_should_roll cfg (on_tick cfg st snap now).1 snap = false := by
        rw [hred1, pe_should_roll_update2]
        exact hpe
      have hhsb : (on_tick cfg st snap now).1.has_otm_wings = true := by
        rw [hred1]
        exact hhs
      have hred2 : on_tick cfg (on_tick cfg st snap now).1 snap now =
          step5 cfg snap.option_chain
            {(on_tick cfg st snap now).1 with open_positions :=
              (computeLegs cfg snap.option_chain
                (on_tick cfg st snap now).1.open_positions).1} := by
        rw [on_tick_no_trigger cfg _ snap now h1b h2b hlrb hceb hpeb]
        exact step4_has cfg snap _ hsh hhsb
      rw [hred2, step5_orders] at ho
      rcases List.mem_map.mp ho with ⟨p, hpf, hps⟩
      have hp1 : p ∈ (on_tick cfg st snap now).1.otm_legs :=
        (List.mem_filter.mp hpf).1
      have hpfired := (List.mem_filter.mp hpf).2
      rw [hred1] at hp1
      have hnotf := (List.mem_filter.mp hp1).2
      rw [hpfired] at hnotf
      simp at hnotf

/-- Witness for C6: the spec's scene — a tracked wing filled at 50 with a
25 % exit threshold, now trading at 65 (+30 %): the wing is sold and
removed, and an identical second tick emits no order for it. -/
theorem claim_C6_witness :
    wingFired tcfg c6_snap.option_chain (w6, m6) = true ∧
    (⟨"sell", w6, tcfg.MESSAGE_LOTS⟩ : OrderReq) ∈
      emittedOrders (on_tick tcfg c6_state c6_snap 0).2 ∧
    (w6, m6) ∉ (on_tick tcfg c6_state c6_snap 0).1.otm_legs ∧
    (⟨"sell", w6, tcfg.MESSAGE_LOTS⟩ : OrderReq) ∉
      emittedOrders (on_tick tcfg (on_tick tcfg c6_state c6_snap 0).1 c6_snap 0).2 := by
  have h := claim_C6 tcfg c6_state c6_snap 0 w6 m6 (by decide) (by decide) (by decide)
    (by decide) (by decide) rfl (by decide) (by decide) (by decide) rfl
  have hf : wingFired tcfg c6_snap.option_chain (w6, m6) = true := by decide
  refine ⟨hf, h.1.mpr hf, (h.2 hf).1 m6, ?_⟩
  intro hmem
  exact (h.2 hf).2 _ hmem rfl

/-! ### Helper lemmas: wing-count invariant -/

/-- Call and put wing symbols differ (they differ in the option-type
component). -/
theorem build_option_symbol_ne (cfg : StratConfig) (a b : ℚ) :
    build_option_symbol cfg a OptType.C ≠ build_option_symbol cfg b OptType.P := by
  unfold build_option_symbol
  intro h
  cases h

/-- Adding wings to an empty tracking dict records exactly the call/put
pair and returns two buy orders. -/
theorem add_otm_wings_nil (cfg : StratConfig) (snap : Snapshot) :
    (add_otm_wings cfg snap []).1.length = 2 ∧
    (add_otm_wings cfg snap []).2.isEmpty = false := by
  simp only [add_otm_wings, alGet, List.find?_nil, Option.map_none', Option.isSome_none,
    Bool.false_eq_true, if_false, List.nil_append]
  rw [List.find?_cons_of_neg _ (by
    simp only [decide_eq_true_eq]
    exact fun hc => build_option_symbol_ne cfg _ _ hc)]
  simp

/-- If the wing-exit step does not fire, it leaves the state unchanged. -/
theorem step5_no_exit (cfg : StratConfig) (chain : List ChainRow) (s : StratState)
    (hno : reasonOf (step5 cfg chain s).2 ≠ some "otm_exit") :
    (step5 cfg chain s).1 = s := by
  simp only [step5, wing_exit_scan] at hno ⊢
  split
  · next hemp =>
    rw [List.isEmpty_iff, List.map_eq_nil_iff, List.filter_eq_nil_iff] at hemp
    have hall : s.otm_legs.filter (fun p => !(wingFired cfg chain p)) = s.otm_legs :=
      List.filter_eq_self.mpr (fun a ha => by simp [hemp a ha])
    rw [hall]
  · next hemp =>
    rw [if_neg hemp] at hno
    exact absurd rfl hno

/-- The wing-lifecycle step preserves the wing-count invariant when it
does not emergency-exit a wing. -/
theorem step4_otm_inv (cfg : StratConfig) (snap : Snapshot) (s : StratState)
    (hP : s.has_otm_wings = false → s.otm_legs = [])
    (hE : Even s.otm_legs.length)
    (hno : reasonOf (step4 cfg snap s).2 ≠ some "otm_exit") :
    ((step4 cfg snap s).1.has_otm_wings = false →
      (step4 cfg snap s).1.otm_legs = []) ∧
    Even (step4 cfg snap s).1.otm_legs.length := by
  by_cases hsh : should_have_otm_wings snap snap.regime = true
  · by_cases hhs : s.has_otm_wings = true
    · have hstep := step4_has cfg snap s hsh hhs
      rw [hstep] at hno ⊢
      rw [step5_no_exit cfg snap.option_chain s hno]
      exact ⟨hP, hE⟩
    · have hhs' : s.has_otm_wings = false := by
        revert hhs; cases s.has_otm_wings <;> simp
      have hleg : s.otm_legs = [] := hP hhs'
      have hadd := add_otm_wings_nil cfg snap
      have hstep : step4 cfg snap s =
          ({s with otm_legs := (add_otm_wings cfg snap []).1,
                   has_otm_wings := true},
           Except.ok (some ⟨"add_otm", [], (add_otm_wings cfg snap []).2⟩)) := by
        unfold step4
        rw [hsh, if_pos rfl, hhs', if_pos rfl, hleg]
        rw [if_neg (by rw [hadd.2]; simp)]
      rw [hstep]
      constructor
      · intro hcontra
        simp at hcontra
      · show Even ((add_otm_wings cfg snap []).1.length)
        rw [hadd.1]
        decide
  · have hsh' : should_have_otm_wings snap snap.regime = false := by
      revert hsh; cases should_have_otm_wings snap snap.regime <;> simp
    by_cases hhs : s.has_otm_wings = true
    · by_cases hr : s.otm_legs = []
      · have hstep : step4 cfg snap s = step5 cfg snap.option_chain s := by
          unfold step4
          rw [hsh', if_neg (by simp), hhs, if_pos rfl]
          rw [if_pos (by rw [hr]; rfl)]
        rw [hstep] at hno ⊢
        rw [step5_no_exit cfg snap.option_chain s hno]
        exact ⟨hP, hE⟩
      · have hstep : step4 cfg snap s =
            ({s with otm_legs := [], has_otm_wings := false},
             Except.ok (some ⟨"remove_otm", [],
               remove_otm_wings cfg s.otm_legs⟩)) := by
          unfold step4
          rw [hsh', if_neg (by simp), hhs, if_pos rfl]
          rw [if_neg (by simp [remove_otm_wings, List.isEmpty_iff, hr])]
        rw [hstep]
        exact ⟨fun _ => rfl, ⟨0, rfl⟩⟩
    · have hhs' : s.has_otm_wings = false := by
        revert hhs; cases s.has_otm_wings <;> simp
      have hstep : step4 cfg snap s = step5 cfg snap.option_chain s := by
        unfold step4
        rw [hsh', if_neg (by simp), hhs', if_neg (by simp)]
      rw [hstep] at hno ⊢
      rw [step5_no_exit cfg snap.option_chain s hno]
      exact ⟨hP, hE⟩

/-- Lemma: `on_tick` either leaves the wing dict and flag alone (stop/target,
raise paths) or hands over to the wing-lifecycle step on a state with the
same wing dict and flag. -/
theorem on_tick_otm_cases (cfg : StratConfig) (st : StratState) (snap : Snapshot)
    (now : ℚ) :
    ((on_tick cfg st snap now).1.otm_legs = st.otm_legs ∧
     (on_tick cfg st snap now).1.has_otm_wings = st.has_otm_wings) ∨
    (∃ s', on_tick cfg st snap now = step4 cfg snap s' ∧
      s'.otm_legs = st.otm_legs ∧ s'.has_otm_wings = st.has_otm_wings) := by
  unfold on_tick
  by_cases hA : (computeLegs cfg snap.option_chain st.open_positions).2.1 +
      (computeLegs cfg snap.option_chain st.open_positions).2.2 +
      st.realized_ce_mtm + st.realized_pe_mtm ≤
      -(cfg.STOPLOSS_PER_LOT * cfg.MESSAGE_LOTS * cfg.LOT_SIZE)
  · simp only [if_pos hA]
    left
    exact ⟨by trivial, by trivial⟩
  · by_cases hB : cfg.TARGET_PER_LOT * cfg.MESSAGE_LOTS * cfg.LOT_SIZE ≤
        (computeLegs cfg snap.option_chain st.open_positions).2.1 +
        (computeLegs cfg snap.option_chain st.open_positions).2.2 +
        st.realized_ce_mtm + st.realized_pe_mtm
    · simp only [if_neg hA, if_pos hB]
      left
      exact ⟨by trivial, by trivial⟩
    · rcases hlt : st.last_roll_time with _ | t
      · simp only [if_neg hA, if_neg hB, hlt]
        split
        · left
          exact ⟨by trivial, by trivial⟩
        · right
          exact ⟨_, rfl, rfl, rfl⟩
      · simp only [if_neg hA, if_neg hB, hlt]
        left
        exact ⟨by trivial, by trivial⟩

/-- Lemma: `on_tick` preserves the wing-count invariant when it does not
emergency-exit a wing. -/
theorem on_tick_otm_inv (cfg : StratConfig) (st : StratState) (snap : Snapshot)
    (now : ℚ)
    (hP : st.has_otm_wings = false → st.otm_legs = [])
    (hE : Even st.otm_legs.length)
    (hno : reasonOf (on_tick cfg st snap now).2 ≠ some "otm_exit") :
    ((on_tick cfg st snap now).1.has_otm_wings = false →
      (on_tick cfg st snap now).1.otm_legs = []) ∧
    Even (on_tick cfg st snap now).1.otm_legs.length := by
  rcases on_tick_otm_cases cfg st snap now with ⟨h1, h2⟩ | ⟨s', hs, ho, hh⟩
  · rw [h1, h2]
    exact ⟨hP, hE⟩
  · rw [hs] at hno ⊢
    exact step4_otm_inv cfg snap s' (by rw [ho, hh]; exact hP) (by rw [ho]; exact hE) hno

/-- The wing-count invariant along every safe interface sequence. -/
theorem reachSafe_inv (cfg : StratConfig) (st : StratState)
    (h : ReachSafe cfg st) :
    (st.has_otm_wings = false → st.otm_legs = []) ∧
    Even st.otm_legs.length := by
  induction h with
  | init => exact ⟨fun _ => rfl, ⟨0, rfl⟩⟩
  | enterR st snap hr ih => exact ih
  | tick st snap now hr hno ih => exact on_tick_otm_inv cfg st snap now ih.1 ih.2 hno
  | exitR st hr ih => exact ⟨fun _ => rfl, ⟨0, rfl⟩⟩
  | confirm st instr px hr hcond ih =>
    have hfound : ((updateFirstLeg st.open_positions instr px).2 ||
        (alGet st.otm_legs instr).isSome) = true := by
      rcases hcond with h1 | h1 <;> simp [h1]
    unfold confirm_fill
    rw [if_pos hfound]
    rcases hg : alGet st.otm_legs instr with _ | mfound
    · simp only [hg]
      exact ih
    · simp only [hg]
      constructor
      · intro hf
        rw [ih.1 hf] at hg
        cases hg
      · rw [alSet, List.length_map]
        exact ih.2

/-- Claim C8, amended (status: corrected; see `claim_C8_counterexample`):
after any sequence of `enter`, `on_tick`, `exit` and `confirm_fill` calls
in which no `on_tick` fires the wing emergency exit and every
`confirm_fill` names a tracked leg or wing, the number of tracked wings
is 0 or even. -/
theorem claim_C8 (cfg : StratConfig) (st : StratState) (h : ReachSafe cfg st) :
    st.otm_legs.length = 0 ∨ Even st.otm_legs.length :=
  Or.inr (reachSafe_inv cfg st h).2

/-- Witness for C8: the initial state is reachable and has an even wing
count. -/
theorem claim_C8_witness :
    initStratState.otm_legs.length = 0 ∨ Even initStratState.otm_legs.length :=
  claim_C8 tcfg initStratState ReachSafe.init
